import Mathlib

/-! The native type registry of `ext/ffi_c/Type.c`.

A shallow embedding of the C extension file `Type.c`: Ruby values, the two
C structs wrapped by `FFI::Type` objects, the two registry hashes
(`FFI::TypeDefs`, `FFI::SizeTypes`), the constant table filled by
`rbffi_Type_Init`, and the resolver functions `rbffi_Type_Lookup`,
`rbffi_Type_Find` and `rbffi_type_size`.

Conventions of the embedding:

* a Ruby `VALUE` is a tagged value; heap objects are references `obj klass addr`
  whose class is part of the reference and whose C struct lives in the heap;
* `int` is 32 bits wide and the checked conversions `FIX2INT` / `NUM2INT`
  raise `RangeError` outside that range, as on an LP64 build of the host;
* a C function that can `rb_raise` returns `Except RbError _`;
* the host runtime's dynamic dispatch (`rb_funcall2`) and `rb_inspect` are
  parameters, and every dispatch made by `rbffi_type_size` is logged.
-/

namespace FFI

/-! ## Ruby values -/

/-- Classes an object reference can carry: `rbffi_TypeClass` (`FFI::Type`),
`classBuiltinType` (`FFI::Type::Builtin`, defined as a subclass of `FFI::Type`),
another class derived from `FFI::Type` by the host program, or a class that
does not descend from `FFI::Type`. -/
inductive RClass where
  | rbffi_TypeClass
  | classBuiltinType
  | derived (id : Nat)
  | foreign (id : Nat)
  deriving DecidableEq, Repr

/-- A Ruby `VALUE`. -/
inductive VALUE where
  | Qnil
  | Qtrue
  | Qfalse
  | fixnum (n : Int)
  | bignum (n : Int)
  | symbol (name : String)
  | string (s : String)
  | module (name : String)
  | obj (klass : RClass) (addr : Nat)
  deriving DecidableEq, Repr

/-- The result of the `TYPE(v)` macro, as far as this file distinguishes it. -/
inductive RubyType where
  | T_NIL | T_TRUE | T_FALSE | T_FIXNUM | T_BIGNUM | T_SYMBOL | T_STRING | T_MODULE | T_DATA
  deriving DecidableEq, Repr

/-- The `TYPE(v)` macro. -/
def TYPE : VALUE → RubyType
  | .Qnil => .T_NIL
  | .Qtrue => .T_TRUE
  | .Qfalse => .T_FALSE
  | .fixnum _ => .T_FIXNUM
  | .bignum _ => .T_BIGNUM
  | .symbol _ => .T_SYMBOL
  | .string _ => .T_STRING
  | .module _ => .T_MODULE
  | .obj _ _ => .T_DATA

/-- The `RTEST(v)` macro: everything but `nil` and `false` is true. -/
def RTEST : VALUE → Bool
  | .Qnil => false
  | .Qfalse => false
  | _ => true

/-- The `FIXNUM_P(v)` macro. -/
def FIXNUM_P : VALUE → Bool
  | .fixnum _ => true
  | _ => false

/-- Does the class descend from (or equal) `rbffi_TypeClass`? -/
def RClass.kindOfType : RClass → Bool
  | .rbffi_TypeClass => true
  | .classBuiltinType => true
  | .derived _ => true
  | .foreign _ => false

/-- The call `rb_obj_is_kind_of(v, rbffi_TypeClass)`. -/
def rb_obj_is_kind_of_Type : VALUE → Bool
  | .obj k _ => k.kindOfType
  | _ => false

/-! ## Exceptions -/

/-- Exception classes raised in this file, by the host's conversion macros,
or by a host method reached through dynamic dispatch. -/
inductive ExcClass where
  | rb_eArgError
  | rb_eTypeError
  | rb_eRangeError
  | rb_eNameError
  | hostRaised (id : Nat)
  deriving DecidableEq, Repr

/-- A raised exception: its class and its message. -/
structure RbError where
  klass : ExcClass
  message : String
  deriving DecidableEq, Repr

/-- The `rb_raise(klass, message)` call. -/
def rb_raise {α : Type} (klass : ExcClass) (message : String) : Except RbError α :=
  .error ⟨klass, message⟩

/-! ## Machine integers -/

/-- The least value of a C `int`. -/
def INT_MIN : Int := -2147483648

/-- The greatest value of a C `int`. -/
def INT_MAX : Int := 2147483647

/-- The range check shared by `FIX2INT` and `NUM2INT`: an integer that does
not fit a C `int` raises `RangeError`. -/
def check_int (n : Int) : Except RbError Int :=
  if INT_MIN ≤ n ∧ n ≤ INT_MAX then .ok n
  else rb_raise .rb_eRangeError "integer out of range of int"

/-- The `FIX2INT(v)` macro, applied where `v` is known to be a fixnum. -/
def FIX2INT : VALUE → Except RbError Int
  | .fixnum n => check_int n
  | _ => rb_raise .rb_eTypeError "not a fixnum"

/-! ## The host runtime -/

/-- Interned method names (`rb_intern` in `rbffi_Type_Init`). -/
inductive ID where
  | id_find_type
  | id_type_size
  | id_size
  deriving DecidableEq, Repr

/-- One dynamic dispatch `rb_funcall2(recv, mid, argc, argv)`. -/
structure Call where
  recv : VALUE
  mid : ID
  args : List VALUE
  deriving DecidableEq, Repr

/-- What the file consumes from the host runtime: the diagnostic rendering of
a value, method dispatch, and the integer conversion (`to_int`) that `NUM2INT`
applies to a value that is not an Integer. -/
structure Host where
  rb_inspect : VALUE → String
  rb_funcall2 : Call → Except RbError VALUE
  rb_to_integer : VALUE → Except RbError Int

/-- The `NUM2INT(v)` macro: Integers are range-checked, `nil` is a
`TypeError`, anything else is converted by the host first. -/
def NUM2INT (host : Host) : VALUE → Except RbError Int
  | .fixnum n => check_int n
  | .bignum n => check_int n
  | .Qnil => rb_raise .rb_eTypeError "no implicit conversion from nil to integer"
  | v => host.rb_to_integer v >>= check_int

/-- The module object `rbffi_FFIModule` (`FFI`). -/
def rbffi_FFIModule : VALUE := .module "FFI"

/-! ## Descriptors and the wrapped structs -/

/-- An `ffi_type` descriptor, as far as this file reads it. -/
structure ffi_type where
  size : Nat
  alignment : Nat
  deriving DecidableEq, Repr

/-- The addresses of libffi's descriptor globals used by the builtin table
(`&ffi_type_void`, `&ffi_type_sint8`, ...). -/
inductive FfiTypeRef where
  | ffi_type_void
  | ffi_type_sint8
  | ffi_type_uint8
  | ffi_type_sint16
  | ffi_type_uint16
  | ffi_type_sint32
  | ffi_type_uint32
  | ffi_type_sint64
  | ffi_type_uint64
  | ffi_type_slong
  | ffi_type_ulong
  | ffi_type_float
  | ffi_type_double
  | ffi_type_pointer
  | ffi_type_uchar
  deriving DecidableEq, Repr, Fintype

/-- The platform's descriptor globals: what each address points to. They are
declared by `<ffi.h>` and are a parameter of the embedding. -/
abbrev Descriptors := FfiTypeRef → ffi_type

/-- The C struct `Type` (declared in `Type.h`): a tag and a descriptor pointer. -/
structure Type_ where
  nativeType : Int
  ffiType : FfiTypeRef
  deriving DecidableEq, Repr

/-- The C struct `BuiltinType`: a `Type` followed by a display name. -/
structure BuiltinType where
  type : Type_
  name : String
  deriving DecidableEq, Repr

/-- What `Data_Make_Struct` allocated behind an object: a `Type` (from
`type_allocate`) or a `BuiltinType` (from `builtin_type_new`). -/
inductive Cell where
  | generic (t : Type_)
  | builtin (b : BuiltinType)
  deriving DecidableEq, Repr

/-- Reading a cell through a `Type*`: a `BuiltinType` starts with its `Type`. -/
def Cell.asType : Cell → Type_
  | .generic t => t
  | .builtin b => b.type

/-- Writing the `Type` part of a cell through a `Type*`. -/
def Cell.setType : Cell → Type_ → Cell
  | .generic _, t => .generic t
  | .builtin b, t => .builtin { b with type := t }

/-- The heap of wrapped structs; an object's address is its index. -/
abbrev Heap := List Cell

/-- The `Data_Get_Struct(v, Type, p)` macro: `Check_Type(v, T_DATA)` followed
by reading the wrapped pointer. A value that wraps no struct of this file is
rejected with a `TypeError`. -/
def Data_Get_Struct (heap : Heap) : VALUE → Except RbError Type_
  | .obj _ addr =>
    match heap[addr]? with
    | some c => .ok c.asType
    | none => rb_raise .rb_eTypeError "wrong argument type (expected Data)"
  | _ => rb_raise .rb_eTypeError "wrong argument type (expected Data)"

/-- The `INT2FIX(i)` macro. -/
def INT2FIX (i : Int) : VALUE := .fixnum i

/-! ## Hashes and constants -/

/-- A Ruby hash created by `rb_hash_new()`: keys are compared by `eql?`,
which on strings, symbols, integers and object references is equality of the
embedded value. The most recent binding of a key comes first and shadows any
earlier binding of the same key, which no read can reach. -/
abbrev RHash := List (VALUE × VALUE)

/-- The call `rb_hash_aref(hash, key)`: the value under the key, else `nil`. -/
def rb_hash_aref (hash : RHash) (key : VALUE) : VALUE :=
  match hash.find? (fun p => decide (p.1 = key)) with
  | some p => p.2
  | none => .Qnil

/-- The call `rb_hash_aset(hash, key, val)`: the new binding replaces the
key's earlier one for every read. -/
def rb_hash_aset (hash : RHash) (key val : VALUE) : RHash :=
  (key, val) :: hash

/-- The three namespaces `rbffi_Type_Init` defines constants in. -/
inductive Scope where
  | classType
  | moduleNativeType
  | moduleFFI
  deriving DecidableEq, Repr

/-- The constant tables of the three namespaces, most recent definition first. -/
abbrev Consts := List ((Scope × String) × VALUE)

/-- The calls `rb_define_const(scope, name, v)` and `rb_const_set(scope, id, v)`. -/
def rb_const_set (consts : Consts) (scope : Scope) (name : String) (v : VALUE) : Consts :=
  ((scope, name), v) :: consts

/-- The call `rb_const_get(scope, id)`: an undefined constant raises `NameError`. -/
def rb_const_get (consts : Consts) (scope : Scope) (name : String) : Except RbError VALUE :=
  match consts.find? (fun p => decide (p.1 = (scope, name))) with
  | some p => .ok p.2
  | none => rb_raise .rb_eNameError ("uninitialized constant " ++ name)

/-- The process-wide state of the file: the heap of wrapped structs, the two
registry hashes `typeMap` (`FFI::TypeDefs`) and `sizeMap` (`FFI::SizeTypes`),
and the constants. -/
structure Runtime where
  heap : Heap
  typeMap : RHash
  sizeMap : RHash
  consts : Consts
  deriving DecidableEq, Repr

/-! ## Handles: allocation, construction, accessors -/

/-- Overwrite the `Type` part of the struct behind an object (a write through
the pointer that `Data_Get_Struct` returned). -/
def store (heap : Heap) (self : VALUE) (t : Type_) : Heap :=
  match self with
  | .obj _ addr => heap.modify (fun c => c.setType t) addr
  | _ => heap

/-- The function `type_allocate(klass)`: a fresh `Type` struct with tag `-1`
and the void descriptor, wrapped in a new object of class `klass`. -/
def type_allocate (heap : Heap) (klass : RClass) : Heap × VALUE :=
  (heap ++ [Cell.generic { nativeType := -1, ffiType := .ffi_type_void }],
   .obj klass heap.length)

/-- The function `type_initialize(self, value)`. -/
def type_initialize (heap : Heap) (self value : VALUE) : Except RbError (Heap × VALUE) := do
  let type ← Data_Get_Struct heap self
  if FIXNUM_P value then
    let n ← FIX2INT value
    .ok (store heap self { type with nativeType := n }, self)
  else if rb_obj_is_kind_of_Type value then
    let other ← Data_Get_Struct heap value
    .ok (store heap self { nativeType := other.nativeType, ffiType := other.ffiType }, self)
  else
    rb_raise .rb_eArgError "wrong type"

/-- The host's `klass.new(value)` for a class using `type_allocate` as its
allocator: allocate, then run `initialize`. -/
def type_new (heap : Heap) (klass : RClass) (value : VALUE) : Except RbError (Heap × VALUE) :=
  let (heap1, obj) := type_allocate heap klass
  type_initialize heap1 obj value

/-- The function `type_size(self)`. -/
def type_size (d : Descriptors) (heap : Heap) (self : VALUE) : Except RbError VALUE := do
  let type ← Data_Get_Struct heap self
  .ok (INT2FIX (d type.ffiType).size)

/-- The function `type_alignment(self)`. -/
def type_alignment (d : Descriptors) (heap : Heap) (self : VALUE) : Except RbError VALUE := do
  let type ← Data_Get_Struct heap self
  .ok (INT2FIX (d type.ffiType).alignment)

/-- The function `rbffi_Type_GetIntValue(type)`. -/
def rbffi_Type_GetIntValue (heap : Heap) (type : VALUE) : Except RbError Int := do
  if !rb_obj_is_kind_of_Type type then
    rb_raise .rb_eTypeError "wrong type.  Expected (FFI::Type)"
  else
    let t ← Data_Get_Struct heap type
    .ok t.nativeType

/-- The function `builtin_type_new(klass, nativeType, ffiType, name)`. -/
def builtin_type_new (heap : Heap) (klass : RClass) (nativeType : Int) (ffiType : FfiTypeRef)
    (name : String) : Heap × VALUE :=
  (heap ++ [Cell.builtin { type := { nativeType := nativeType, ffiType := ffiType }, name := name }],
   .obj klass heap.length)

/-! ## The resolver -/

/-- The function `rbffi_type_size(type)`, returning its result together with
the dynamic dispatches it made, in order. -/
def rbffi_type_size (host : Host) (rt : Runtime) (type : VALUE) :
    Except RbError Int × List Call :=
  let t := TYPE type
  if t = .T_FIXNUM ∨ t = .T_BIGNUM then
    (NUM2INT host type, [])
  else if t = .T_SYMBOL then
    let nType := rb_hash_aref rt.typeMap type
    let call : Call := { recv := rbffi_FFIModule, mid := .id_type_size, args := [type] }
    if nType ≠ .Qnil then
      let nSize := rb_hash_aref rt.sizeMap nType
      if TYPE nSize = .T_FIXNUM then
        (FIX2INT nSize, [])
      else
        (host.rb_funcall2 call >>= NUM2INT host, [call])
    else
      (host.rb_funcall2 call >>= NUM2INT host, [call])
  else
    let call : Call := { recv := type, mid := .id_size, args := [] }
    (host.rb_funcall2 call >>= NUM2INT host, [call])

/-- The function `rbffi_Type_Lookup(name)`. It has no raising path: the
result is a value, `nil` standing for "not found". -/
def rbffi_Type_Lookup (rt : Runtime) (name : VALUE) : VALUE :=
  let t := TYPE name
  if t = .T_SYMBOL ∨ t = .T_STRING then
    let nType := rb_hash_aref rt.typeMap name
    if nType ≠ .Qnil ∧ rb_obj_is_kind_of_Type nType = true then nType else .Qnil
  else if rb_obj_is_kind_of_Type name = true then
    name
  else
    .Qnil

/-- The function `rbffi_Type_Find(name)`. -/
def rbffi_Type_Find (host : Host) (rt : Runtime) (name : VALUE) : Except RbError VALUE :=
  let rbType := rbffi_Type_Lookup rt name
  if !RTEST rbType then
    rb_raise .rb_eTypeError ("invalid type, " ++ host.rb_inspect name)
  else
    .ok rbType

/-! ## Initialization -/

/-- The names `x` for which `rbffi_Type_Init` expands `T(x, ...)`; each has an
enumerator `NATIVE_x` in `Types.h`. -/
inductive NativeType where
  | VOID | INT8 | UINT8 | INT16 | UINT16 | INT32 | UINT32 | INT64 | UINT64
  | LONG | ULONG | FLOAT32 | FLOAT64 | POINTER | STRING
  | BUFFER_IN | BUFFER_OUT | BUFFER_INOUT | BOOL | VARARGS
  deriving DecidableEq, Repr, Fintype

/-- The stringification `#x` of the macro argument. -/
def NativeType.name : NativeType → String
  | .VOID => "VOID"
  | .INT8 => "INT8"
  | .UINT8 => "UINT8"
  | .INT16 => "INT16"
  | .UINT16 => "UINT16"
  | .INT32 => "INT32"
  | .UINT32 => "UINT32"
  | .INT64 => "INT64"
  | .UINT64 => "UINT64"
  | .LONG => "LONG"
  | .ULONG => "ULONG"
  | .FLOAT32 => "FLOAT32"
  | .FLOAT64 => "FLOAT64"
  | .POINTER => "POINTER"
  | .STRING => "STRING"
  | .BUFFER_IN => "BUFFER_IN"
  | .BUFFER_OUT => "BUFFER_OUT"
  | .BUFFER_INOUT => "BUFFER_INOUT"
  | .BOOL => "BOOL"
  | .VARARGS => "VARARGS"

/-- The integer values of the enumerators `NATIVE_x`. The enumeration is
declared in `Types.h`; its values are a parameter of the embedding. -/
abbrev TagValues := NativeType → Int

/-- One line of the builtin table: a `T(x, ffiType)` or an `A(old_type, new_type)`. -/
inductive Stmt where
  | T (x : NativeType) (ffiType : FfiTypeRef)
  | A (old_type new_type : String)
  deriving DecidableEq, Repr

/-- The body of the macro `T(x, ffiType)`. -/
def T (NATIVE : TagValues) (rt : Runtime) (x : NativeType) (ffiType : FfiTypeRef) : Runtime :=
  let (heap, t) := builtin_type_new rt.heap .classBuiltinType (NATIVE x) ffiType x.name
  let c1 := rb_const_set rt.consts .classType x.name t
  let c2 := rb_const_set c1 .moduleNativeType x.name t
  let c3 := rb_const_set c2 .moduleFFI ("TYPE_" ++ x.name) t
  { rt with heap := heap, consts := c3 }

/-- The body of the macro `A(old_type, new_type)`. -/
def A (rt : Runtime) (old_type new_type : String) : Except RbError Runtime := do
  let t ← rb_const_get rt.consts .classType old_type
  .ok { rt with consts := rb_const_set rt.consts .classType new_type t }

/-- The lines of `rbffi_Type_Init` that define the builtin types, in order. -/
def builtinTable : List Stmt :=
  [ .T .VOID .ffi_type_void,
    .T .INT8 .ffi_type_sint8,
    .A "INT8" "SCHAR",
    .A "INT8" "CHAR",
    .T .UINT8 .ffi_type_uint8,
    .A "UINT8" "UCHAR",
    .T .INT16 .ffi_type_sint16,
    .A "INT16" "SHORT",
    .A "INT16" "SSHORT",
    .T .UINT16 .ffi_type_uint16,
    .A "UINT16" "USHORT",
    .T .INT32 .ffi_type_sint32,
    .A "INT32" "INT",
    .A "INT32" "SINT",
    .T .UINT32 .ffi_type_uint32,
    .A "UINT32" "UINT",
    .T .INT64 .ffi_type_sint64,
    .A "INT64" "LONG_LONG",
    .A "INT64" "SLONG_LONG",
    .T .UINT64 .ffi_type_uint64,
    .A "UINT64" "ULONG_LONG",
    .T .LONG .ffi_type_slong,
    .A "LONG" "SLONG",
    .T .ULONG .ffi_type_ulong,
    .T .FLOAT32 .ffi_type_float,
    .A "FLOAT32" "FLOAT",
    .T .FLOAT64 .ffi_type_double,
    .A "FLOAT64" "DOUBLE",
    .T .POINTER .ffi_type_pointer,
    .T .STRING .ffi_type_pointer,
    .T .BUFFER_IN .ffi_type_pointer,
    .T .BUFFER_OUT .ffi_type_pointer,
    .T .BUFFER_INOUT .ffi_type_pointer,
    .T .BOOL .ffi_type_uchar,
    .T .VARARGS .ffi_type_void ]

/-- Run one line of the builtin table. -/
def Stmt.run (NATIVE : TagValues) (rt : Runtime) : Stmt → Except RbError Runtime
  | .T x ffiType => .ok (FFI.T NATIVE rt x ffiType)
  | .A old_type new_type => FFI.A rt old_type new_type

/-- The state `rbffi_Type_Init` starts its table from: both hashes freshly
created by `rb_hash_new()`, no struct allocated, no constant defined. -/
def freshRuntime : Runtime :=
  { heap := [], typeMap := [], sizeMap := [], consts := [] }

/-- The function `rbffi_Type_Init(moduleFFI)`: create the two hashes, then run
the builtin table. Nothing is stored in either hash. -/
def rbffi_Type_Init (NATIVE : TagValues) : Except RbError Runtime :=
  builtinTable.foldlM (Stmt.run NATIVE) freshRuntime

/-! ## The state left by initialization -/

deriving instance DecidableEq for Except

/-- The struct that `T(x, ffiType)` hands to `builtin_type_new`. -/
def builtinCell (NATIVE : TagValues) (x : NativeType) (ffiType : FfiTypeRef) : Cell :=
  .builtin { type := { nativeType := NATIVE x, ffiType := ffiType }, name := x.name }

/-- The structs one line of the builtin table allocates. -/
def Stmt.cells (NATIVE : TagValues) : Stmt → List Cell
  | .T x ffiType => [builtinCell NATIVE x ffiType]
  | .A _ _ => []

/-- The structs a run of lines allocates, in order. -/
def tableCells (NATIVE : TagValues) : List Stmt → List Cell
  | [] => []
  | s :: rest => s.cells NATIVE ++ tableCells NATIVE rest

/-- The constant table after initialization. It holds object references
only, so it is the same for every numbering of the tags. -/
def initConsts : Consts :=
  match rbffi_Type_Init (fun _ => 0) with
  | .ok rt => rt.consts
  | .error _ => []

/-- The runtime after `rbffi_Type_Init` (see `rbffi_Type_Init_eq`). -/
def initRuntime (NATIVE : TagValues) : Runtime :=
  { heap := tableCells NATIVE builtinTable, typeMap := [], sizeMap := [], consts := initConsts }

/-- The descriptor the builtin table binds to a tag: the second argument of
its `T` line. -/
def tableDescriptor (x : NativeType) : Option FfiTypeRef :=
  builtinTable.findSome? fun s =>
    match s with
    | .T y ffiType => if y = x then some ffiType else none
    | .A _ _ => none

/-- Check on one line of the table against a constant table: both names of
an `A` line are bound to the same object, the object of some `T` line. -/
def Stmt.aliasBound (consts : Consts) : Stmt → Bool
  | .A old_type new_type =>
    decide (∃ x : NativeType,
      rb_const_get consts .classType new_type = .ok (.obj .classBuiltinType x.toCtorIdx) ∧
      rb_const_get consts .classType old_type = .ok (.obj .classBuiltinType x.toCtorIdx))
  | .T _ _ => true

/-- The host's registration of a handle under a name: `FFI::TypeDefs[key] = v`. -/
def registerType (rt : Runtime) (key v : VALUE) : Runtime :=
  { rt with typeMap := rb_hash_aset rt.typeMap key v }

/-- The host's registration of a byte size for a handle: `FFI::SizeTypes[v] = size`. -/
def registerSize (rt : Runtime) (v size : VALUE) : Runtime :=
  { rt with sizeMap := rb_hash_aset rt.sizeMap v size }

/-- Is the value a live handle: an object in the kind of `FFI::Type` that
wraps a struct of the heap? -/
def isTypeHandle (heap : Heap) (v : VALUE) : Bool :=
  rb_obj_is_kind_of_Type v &&
    match Data_Get_Struct heap v with
    | .ok _ => true
    | .error _ => false

/-- The constant name a line of the table introduces in class `FFI::Type`:
`#x` for `T(x, ...)`, `#new_type` for `A(old_type, new_type)`. -/
def Stmt.introduced : Stmt → String
  | .T x _ => x.name
  | .A _ new_type => new_type

/-- Does the line define the canonical type of this name: is it `T(name, ...)`? -/
def Stmt.definesCanonical (name : String) : Stmt → Bool
  | .T x _ => decide (x.name = name)
  | .A _ _ => false

/-- Walk the table in initialization order: every `A(old_type, ...)` line
must come after a `T(old_type, ...)` line. `earlier` holds the lines already
run. -/
def aliasTargetsDefined (earlier : List Stmt) : List Stmt → Bool
  | [] => true
  | .T x ffiType :: rest => aliasTargetsDefined (earlier ++ [.T x ffiType]) rest
  | .A old_type new_type :: rest =>
    earlier.any (Stmt.definesCanonical old_type) &&
      aliasTargetsDefined (earlier ++ [.A old_type new_type]) rest

/-! ## Concrete instances of the parameters

Used to evaluate the functions on explicit inputs. -/

/-- A numbering of the tags: the enumerators counted from 0 in the order of
the builtin table. -/
def countedTags : TagValues := fun x => (x.toCtorIdx : Int)

/-- Modelled from the spec: the descriptor globals of libffi, which are
declared outside this file, on a 64-bit target. Section 3 gives VOID size 0
and every other descriptor a positive size and alignment; section 8 gives the
pointer 8 bytes. -/
def lp64 : Descriptors
  | .ffi_type_void => ⟨0, 1⟩
  | .ffi_type_sint8 => ⟨1, 1⟩
  | .ffi_type_uint8 => ⟨1, 1⟩
  | .ffi_type_sint16 => ⟨2, 2⟩
  | .ffi_type_uint16 => ⟨2, 2⟩
  | .ffi_type_sint32 => ⟨4, 4⟩
  | .ffi_type_uint32 => ⟨4, 4⟩
  | .ffi_type_sint64 => ⟨8, 8⟩
  | .ffi_type_uint64 => ⟨8, 8⟩
  | .ffi_type_slong => ⟨8, 8⟩
  | .ffi_type_ulong => ⟨8, 8⟩
  | .ffi_type_float => ⟨4, 4⟩
  | .ffi_type_double => ⟨8, 8⟩
  | .ffi_type_pointer => ⟨8, 8⟩
  | .ffi_type_uchar => ⟨1, 1⟩

/-- The host as `rbffi_Type_Init` leaves it on the 64-bit target, with no
Ruby-side FFI code loaded: `size` is answered by a string with its length and
by a handle through `type_size` (the method `rbffi_Type_Init` defines on
`FFI::Type`); every other dispatch raises (`NoMethodError`), and no
non-Integer converts to an integer. -/
def plainHost : Host where
  rb_inspect := fun v =>
    match v with
    | .symbol s => ":" ++ s
    | .string s => "\"" ++ s ++ "\""
    | .Qnil => "nil"
    | _ => "#<Object>"
  rb_funcall2 := fun c =>
    match c.mid, c.recv with
    | .id_size, .string s => .ok (.fixnum s.length)
    | .id_size, .obj k addr =>
      if k.kindOfType then type_size lp64 (initRuntime countedTags).heap (.obj k addr)
      else .error ⟨.hostRaised 0, "undefined method"⟩
    | _, _ => .error ⟨.hostRaised 0, "undefined method"⟩
  rb_to_integer := fun _ => .error ⟨.rb_eTypeError, "can't convert into Integer"⟩

/-- A host with the Ruby-side `FFI.type_size` loaded: it answers 16 for every
name it is asked about, and otherwise behaves as `plainHost`. -/
def rubyHost : Host where
  rb_inspect := plainHost.rb_inspect
  rb_funcall2 := fun c =>
    match c.mid, c.recv with
    | .id_type_size, .module "FFI" => .ok (.fixnum 16)
    | _, _ => plainHost.rb_funcall2 c
  rb_to_integer := plainHost.rb_to_integer

/-! ## Facts about initialization -/

/-- One line of the table appends its structs to the heap and leaves both
hashes alone. -/
theorem Stmt.run_frame (NATIVE : TagValues) (rt rt1 : Runtime) (s : Stmt)
    (h : s.run NATIVE rt = .ok rt1) :
    rt1.heap = rt.heap ++ s.cells NATIVE ∧ rt1.typeMap = rt.typeMap ∧
      rt1.sizeMap = rt.sizeMap := by
  cases s with
  | T x ffiType =>
    simp only [Stmt.run, FFI.T, builtin_type_new, Except.ok.injEq] at h
    subst h
    exact ⟨rfl, rfl, rfl⟩
  | A old_type new_type =>
    simp only [Stmt.run, FFI.A, bind, Except.bind] at h
    cases hc : rb_const_get rt.consts Scope.classType old_type with
    | error e => rw [hc] at h; cases h
    | ok t =>
      rw [hc] at h
      simp only [Except.ok.injEq] at h
      subst h
      simp [Stmt.cells]

/-- A run of lines appends its structs to the heap and leaves both hashes alone. -/
theorem foldlM_run_frame (NATIVE : TagValues) (stmts : List Stmt) :
    ∀ rt rt1 : Runtime, stmts.foldlM (Stmt.run NATIVE) rt = .ok rt1 →
      rt1.heap = rt.heap ++ tableCells NATIVE stmts ∧ rt1.typeMap = rt.typeMap ∧
        rt1.sizeMap = rt.sizeMap := by
  induction stmts with
  | nil =>
    intro rt rt1 h
    simp only [List.foldlM_nil, pure, Except.pure, Except.ok.injEq] at h
    subst h
    simp [tableCells]
  | cons s rest ih =>
    intro rt rt1 h
    simp only [List.foldlM_cons, bind, Except.bind] at h
    cases hs : s.run NATIVE rt with
    | error e => rw [hs] at h; cases h
    | ok rt2 =>
      rw [hs] at h
      obtain ⟨h1, h2, h3⟩ := Stmt.run_frame NATIVE rt rt2 s hs
      obtain ⟨k1, k2, k3⟩ := ih rt2 rt1 h
      refine ⟨?_, by rw [k2, h2], by rw [k3, h3]⟩
      rw [k1, h1, tableCells, List.append_assoc]

/-- The constants a line defines depend on the constants and on the number
of structs allocated so far, not on the numbering of the tags. -/
theorem Stmt.run_consts (N1 N2 : TagValues) (rt1 rt2 r2 : Runtime) (s : Stmt)
    (hc : rt1.consts = rt2.consts) (hl : rt1.heap.length = rt2.heap.length)
    (h : s.run N2 rt2 = .ok r2) :
    ∃ r1, s.run N1 rt1 = .ok r1 ∧ r1.consts = r2.consts ∧
      r1.heap.length = r2.heap.length := by
  cases s with
  | T x ffiType =>
    simp only [Stmt.run, FFI.T, builtin_type_new, Except.ok.injEq] at h
    subst h
    refine ⟨_, rfl, ?_, ?_⟩
    · simp [FFI.T, builtin_type_new, hc, hl]
    · simp [FFI.T, builtin_type_new, hl]
  | A old_type new_type =>
    simp only [Stmt.run, FFI.A, bind, Except.bind] at h
    cases hg : rb_const_get rt2.consts Scope.classType old_type with
    | error e => rw [hg] at h; cases h
    | ok t =>
      rw [hg] at h
      simp only [Except.ok.injEq] at h
      subst h
      refine ⟨{ rt1 with consts := rb_const_set rt1.consts .classType new_type t }, ?_, ?_, ?_⟩
      · simp [Stmt.run, FFI.A, bind, Except.bind, hc, hg]
      · simp [hc]
      · simp [hl]

/-- The same, for a run of lines. -/
theorem foldlM_run_consts (N1 N2 : TagValues) (stmts : List Stmt) :
    ∀ rt1 rt2 r2 : Runtime, rt1.consts = rt2.consts → rt1.heap.length = rt2.heap.length →
      stmts.foldlM (Stmt.run N2) rt2 = .ok r2 →
      ∃ r1, stmts.foldlM (Stmt.run N1) rt1 = .ok r1 ∧ r1.consts = r2.consts := by
  induction stmts with
  | nil =>
    intro rt1 rt2 r2 hc _ h
    simp only [List.foldlM_nil, pure, Except.pure, Except.ok.injEq] at h
    subst h
    exact ⟨rt1, rfl, hc⟩
  | cons s rest ih =>
    intro rt1 rt2 r2 hc hl h
    simp only [List.foldlM_cons, bind, Except.bind] at h
    cases hs : s.run N2 rt2 with
    | error e => rw [hs] at h; cases h
    | ok m2 =>
      rw [hs] at h
      obtain ⟨m1, hm, hmc, hml⟩ := Stmt.run_consts N1 N2 rt1 rt2 m2 s hc hl hs
      obtain ⟨r1, hr, hrc⟩ := ih m1 m2 r2 hmc hml h
      refine ⟨r1, ?_, hrc⟩
      simp only [List.foldlM_cons, bind, Except.bind, hm]
      exact hr

/-- Initialization succeeds, whatever the numbering of the tags, and leaves
the runtime `initRuntime`: one struct per `T` line, both hashes empty. -/
theorem rbffi_Type_Init_eq (NATIVE : TagValues) :
    rbffi_Type_Init NATIVE = .ok (initRuntime NATIVE) := by
  have h0 : (rbffi_Type_Init (fun _ => 0)).toBool = true := by decide
  cases hr : rbffi_Type_Init (fun _ => 0) with
  | error e => rw [hr] at h0; cases h0
  | ok r0 =>
    have hc0 : initConsts = r0.consts := by simp [initConsts, hr]
    obtain ⟨r1, h1, h1c⟩ :=
      foldlM_run_consts NATIVE (fun _ => 0) builtinTable freshRuntime freshRuntime r0 rfl rfl hr
    obtain ⟨k1, k2, k3⟩ := foldlM_run_frame NATIVE builtinTable freshRuntime r1 h1
    have : r1 = initRuntime NATIVE := by
      cases r1
      simp only [initRuntime, Runtime.mk.injEq]
      simp only [freshRuntime, List.nil_append] at k1 k2 k3
      simp only at h1c
      exact ⟨k1, k2, k3, by rw [hc0, h1c]⟩
    rw [← this]
    exact h1

/-! ## Facts about the hashes and the resolver -/

/-- Reading a key that no binding of the hash has gives `nil`. -/
theorem rb_hash_aref_of_not_mem (hash : RHash) (key : VALUE)
    (h : ∀ v, (key, v) ∉ hash) : rb_hash_aref hash key = .Qnil := by
  unfold rb_hash_aref
  cases hf : hash.find? (fun p => decide (p.1 = key)) with
  | none => rfl
  | some p =>
    have hk := List.find?_some hf
    have hm := List.mem_of_find?_eq_some hf
    simp only [decide_eq_true_eq] at hk
    obtain ⟨a, b⟩ := p
    simp only at hk
    subst hk
    exact absurd hm (h b)

/-- Reading the key just written gives the value written. -/
theorem rb_hash_aref_aset_same (hash : RHash) (key v : VALUE) :
    rb_hash_aref (rb_hash_aset hash key v) key = v := by
  simp [rb_hash_aref, rb_hash_aset]

/-- Writing a key leaves the reading of every other key unchanged. -/
theorem rb_hash_aref_aset_ne (hash : RHash) (key other v : VALUE) (h : key ≠ other) :
    rb_hash_aref (rb_hash_aset hash key v) other = rb_hash_aref hash other := by
  simp [rb_hash_aref, rb_hash_aset, h]

/-- On an object in the kind of `FFI::Type`, lookup is the identity. -/
theorem lookup_of_kind (rt : Runtime) (h : VALUE) (hk : rb_obj_is_kind_of_Type h = true) :
    rbffi_Type_Lookup rt h = h := by
  cases h <;> simp_all [rbffi_Type_Lookup, TYPE, rb_obj_is_kind_of_Type]

/-- On a symbol or string, lookup reads `typeMap` and keeps the value only
when it is in the kind of `FFI::Type`. -/
theorem lookup_of_name (rt : Runtime) (k : VALUE)
    (hk : TYPE k = .T_SYMBOL ∨ TYPE k = .T_STRING) :
    rbffi_Type_Lookup rt k =
      if rb_hash_aref rt.typeMap k ≠ .Qnil ∧
          rb_obj_is_kind_of_Type (rb_hash_aref rt.typeMap k) = true
      then rb_hash_aref rt.typeMap k else .Qnil := by
  simp [rbffi_Type_Lookup, hk]

/-- Lookup returns `nil` or an object in the kind of `FFI::Type`. -/
theorem lookup_nil_or_kind (rt : Runtime) (x : VALUE) :
    rbffi_Type_Lookup rt x = .Qnil ∨ rb_obj_is_kind_of_Type (rbffi_Type_Lookup rt x) = true := by
  unfold rbffi_Type_Lookup
  simp only
  split
  · split
    · rename_i h; exact Or.inr h.2
    · exact Or.inl rfl
  · split
    · rename_i h; exact Or.inr h
    · exact Or.inl rfl

/-- An object in the kind of `FFI::Type` is true for `RTEST`. -/
theorem RTEST_of_kind (v : VALUE) (h : rb_obj_is_kind_of_Type v = true) : RTEST v = true := by
  cases v <;> simp_all [rb_obj_is_kind_of_Type, RTEST]

/-- Find on a found value returns it. -/
theorem find_of_lookup_kind (host : Host) (rt : Runtime) (x : VALUE)
    (h : rb_obj_is_kind_of_Type (rbffi_Type_Lookup rt x) = true) :
    rbffi_Type_Find host rt x = .ok (rbffi_Type_Lookup rt x) := by
  simp [rbffi_Type_Find, RTEST_of_kind _ h]

/-- Find on a value that lookup does not find raises `TypeError`, the
message carrying the rendering of the value. -/
theorem find_of_lookup_nil (host : Host) (rt : Runtime) (x : VALUE)
    (h : rbffi_Type_Lookup rt x = .Qnil) :
    rbffi_Type_Find host rt x =
      .error ⟨.rb_eTypeError, "invalid type, " ++ host.rb_inspect x⟩ := by
  simp [rbffi_Type_Find, h, RTEST, rb_raise]

/-- After initialization no symbol or string is found: `typeMap` is empty. -/
theorem lookup_initRuntime_name (NATIVE : TagValues) (k : VALUE)
    (hk : TYPE k = .T_SYMBOL ∨ TYPE k = .T_STRING) :
    rbffi_Type_Lookup (initRuntime NATIVE) k = .Qnil := by
  rw [lookup_of_name _ _ hk]
  simp [initRuntime, rb_hash_aref]

/-- The constant named after each tag of the table is the object whose
address is the tag's position, and the table binds one descriptor to the tag. -/
theorem initConsts_canonical :
    ∀ (x : NativeType) (ffiType : FfiTypeRef), Stmt.T x ffiType ∈ builtinTable →
      tableDescriptor x = some ffiType ∧
        rb_const_get initConsts .classType x.name =
          .ok (.obj .classBuiltinType x.toCtorIdx) := by
  decide

/-- The struct at a tag's position carries the tag's value, its descriptor
and its name. -/
theorem initRuntime_heap (NATIVE : TagValues) (x : NativeType) :
    ∃ ffiType, tableDescriptor x = some ffiType ∧
      (initRuntime NATIVE).heap[x.toCtorIdx]? = some (builtinCell NATIVE x ffiType) := by
  cases x <;> exact ⟨_, rfl, rfl⟩

/-- The struct behind the constant of a `T` line. -/
theorem initRuntime_struct (NATIVE : TagValues) (x : NativeType) (ffiType : FfiTypeRef)
    (hx : Stmt.T x ffiType ∈ builtinTable) :
    Data_Get_Struct (initRuntime NATIVE).heap (.obj .classBuiltinType x.toCtorIdx) =
      .ok { nativeType := NATIVE x, ffiType := ffiType } := by
  obtain ⟨f, hf, hh⟩ := initRuntime_heap NATIVE x
  have := (initConsts_canonical x ffiType hx).1
  rw [hf] at this
  cases this
  simp [Data_Get_Struct, hh, builtinCell, Cell.asType]

/-- Both names of every `A` line are bound, after initialization, to one
and the same object, which is the object of some `T` line. -/
theorem initConsts_alias :
    ∀ s ∈ builtinTable, s.aliasBound initConsts = true := by
  decide

/-- Initialization allocates one struct per `T` line: twenty. -/
theorem initRuntime_heap_length (NATIVE : TagValues) :
    (initRuntime NATIVE).heap.length = 20 := rfl

/-- Registering a handle under a symbol or string makes find return it. -/
theorem find_registerType (host : Host) (rt : Runtime) (k h : VALUE)
    (hk : TYPE k = .T_SYMBOL ∨ TYPE k = .T_STRING)
    (hh : rb_obj_is_kind_of_Type h = true) :
    rbffi_Type_Find host (registerType rt k h) k = .ok h := by
  have hn : h ≠ .Qnil := by
    intro e; subst e; simp [rb_obj_is_kind_of_Type] at hh
  have hl : rbffi_Type_Lookup (registerType rt k h) k = h := by
    rw [lookup_of_name _ _ hk]
    simp [registerType, rb_hash_aref_aset_same, hn, hh]
  have := find_of_lookup_kind host (registerType rt k h) k (by rw [hl]; exact hh)
  rw [hl] at this
  exact this

/-- Modifying the last cell of a heap just extended by one cell. -/
theorem modify_concat_length (f : Cell → Cell) (heap : Heap) (c : Cell) :
    (heap ++ [c]).modify f heap.length = heap ++ [f c] := by
  induction heap with
  | nil => rfl
  | cons a rest ih =>
    simp only [List.cons_append, List.length_cons, List.modify_succ_cons, ih]

/-- Construction from a fixnum within the range of `int` succeeds: the new
struct holds the integer as its tag and keeps the void descriptor. -/
theorem type_new_fixnum_ok (heap : Heap) (klass : RClass) (n : Int)
    (h : INT_MIN ≤ n ∧ n ≤ INT_MAX) :
    type_new heap klass (.fixnum n) =
      .ok (heap ++ [Cell.generic { nativeType := n, ffiType := .ffi_type_void }],
        .obj klass heap.length) := by
  simp [type_new, type_allocate, type_initialize, Data_Get_Struct, FIXNUM_P, FIX2INT,
    check_int, h, store, modify_concat_length, Cell.asType, Cell.setType, bind, Except.bind]

/-! ## The resolver: lookup and find -/

/-- C1. For every registry state and every handle `h` (an object in the kind
of `FFI::Type`, generic or builtin), lookup returns `h` itself, and the same
in any other registry state: the registry is not consulted. -/
theorem lookup_handle_passthrough (rt other : Runtime) (h : VALUE)
    (hk : rb_obj_is_kind_of_Type h = true) :
    rbffi_Type_Lookup rt h = h ∧ rbffi_Type_Lookup other h = rbffi_Type_Lookup rt h := by
  rw [lookup_of_kind rt h hk, lookup_of_kind other h hk]
  exact ⟨rfl, rfl⟩

/-- Witness of C1 on a builtin handle and on a generic handle of the
initialized runtime, against an empty registry. -/
theorem lookup_handle_passthrough_witness :
    (rbffi_Type_Lookup (initRuntime countedTags) (.obj .classBuiltinType 1) =
        .obj .classBuiltinType 1 ∧
      rbffi_Type_Lookup freshRuntime (.obj .classBuiltinType 1) =
        rbffi_Type_Lookup (initRuntime countedTags) (.obj .classBuiltinType 1)) ∧
    (rbffi_Type_Lookup (initRuntime countedTags) (.obj .rbffi_TypeClass 20) =
        .obj .rbffi_TypeClass 20 ∧
      rbffi_Type_Lookup freshRuntime (.obj .rbffi_TypeClass 20) =
        rbffi_Type_Lookup (initRuntime countedTags) (.obj .rbffi_TypeClass 20)) :=
  ⟨lookup_handle_passthrough (initRuntime countedTags) freshRuntime
      (.obj .classBuiltinType 1) rfl,
    lookup_handle_passthrough (initRuntime countedTags) freshRuntime
      (.obj .rbffi_TypeClass 20) rfl⟩

/-- C2. For every registry state and every string or symbol `k`: when the
binding of exactly the key `k` in `typeMap` holds a handle `h`, lookup returns
`h`; when `typeMap` has no binding of `k`, lookup returns `nil`, the not-found
value. Lookup has no error result in either case (its result is a value). -/
theorem lookup_name_exact (rt : Runtime) (k : VALUE)
    (hk : TYPE k = .T_SYMBOL ∨ TYPE k = .T_STRING) :
    (∀ h, rt.typeMap.find? (fun p => decide (p.1 = k)) = some (k, h) →
        rb_obj_is_kind_of_Type h = true → rbffi_Type_Lookup rt k = h) ∧
    ((∀ v, (k, v) ∉ rt.typeMap) → rbffi_Type_Lookup rt k = .Qnil) := by
  constructor
  · intro h hf hkind
    have ha : rb_hash_aref rt.typeMap k = h := by simp [rb_hash_aref, hf]
    have hn : h ≠ .Qnil := by
      intro e; subst e; simp [rb_obj_is_kind_of_Type] at hkind
    rw [lookup_of_name rt k hk, ha]
    simp [hn, hkind]
  · intro hno
    rw [lookup_of_name rt k hk, rb_hash_aref_of_not_mem _ _ hno]
    simp

/-- Witness of C2: the symbol `:int` registered to the INT32 builtin is found,
and the string `"int"`, a different key, is not. -/
theorem lookup_name_exact_witness :
    ((∀ h, (registerType (initRuntime countedTags) (.symbol "int")
          (.obj .classBuiltinType 5)).typeMap.find?
            (fun p => decide (p.1 = VALUE.symbol "int")) = some (.symbol "int", h) →
        rb_obj_is_kind_of_Type h = true →
        rbffi_Type_Lookup (registerType (initRuntime countedTags) (.symbol "int")
          (.obj .classBuiltinType 5)) (.symbol "int") = h) ∧
      ((∀ v, (VALUE.symbol "int", v) ∉ (registerType (initRuntime countedTags) (.symbol "int")
          (.obj .classBuiltinType 5)).typeMap) →
        rbffi_Type_Lookup (registerType (initRuntime countedTags) (.symbol "int")
          (.obj .classBuiltinType 5)) (.symbol "int") = .Qnil)) ∧
    rbffi_Type_Lookup (registerType (initRuntime countedTags) (.symbol "int")
      (.obj .classBuiltinType 5)) (.symbol "int") = .obj .classBuiltinType 5 ∧
    rbffi_Type_Lookup (registerType (initRuntime countedTags) (.symbol "int")
      (.obj .classBuiltinType 5)) (.string "int") = .Qnil :=
  ⟨lookup_name_exact _ (.symbol "int") (Or.inl rfl), by decide, by decide⟩

/-- C3. For every registry state and every identifier `x`: find fails if and
only if lookup returns `nil`; when it fails the error is a `TypeError` whose
message is "invalid type, " followed by the rendering (`rb_inspect`) of `x`;
when it succeeds it returns exactly what lookup returns. -/
theorem find_iff_lookup (host : Host) (rt : Runtime) (x : VALUE) :
    ((∃ e, rbffi_Type_Find host rt x = .error e) ↔ rbffi_Type_Lookup rt x = .Qnil) ∧
    (rbffi_Type_Lookup rt x = .Qnil →
      rbffi_Type_Find host rt x =
        .error ⟨.rb_eTypeError, "invalid type, " ++ host.rb_inspect x⟩) ∧
    (rbffi_Type_Lookup rt x ≠ .Qnil →
      rbffi_Type_Find host rt x = .ok (rbffi_Type_Lookup rt x)) := by
  have hok : rbffi_Type_Lookup rt x ≠ .Qnil →
      rbffi_Type_Find host rt x = .ok (rbffi_Type_Lookup rt x) := by
    intro hne
    rcases lookup_nil_or_kind rt x with h | h
    · exact absurd h hne
    · exact find_of_lookup_kind host rt x h
  refine ⟨⟨?_, ?_⟩, find_of_lookup_nil host rt x, hok⟩
  · rintro ⟨e, he⟩
    by_contra hne
    rw [hok hne] at he
    cases he
  · intro h
    exact ⟨_, find_of_lookup_nil host rt x h⟩

/-! ## Initialization: canonical names and aliases -/

/-- C4, as stated, fails: right after initialization, with nothing else
registered, find raises on the canonical name of INT8, whether it is given as
a string or as a symbol, in upper or lower case. -/
theorem find_canonical_after_init_counterexample :
    rbffi_Type_Init countedTags = .ok (initRuntime countedTags) ∧
    rbffi_Type_Find plainHost (initRuntime countedTags) (.string "INT8") =
      .error ⟨.rb_eTypeError, "invalid type, \"INT8\""⟩ ∧
    rbffi_Type_Find plainHost (initRuntime countedTags) (.symbol "INT8") =
      .error ⟨.rb_eTypeError, "invalid type, :INT8"⟩ ∧
    rbffi_Type_Find plainHost (initRuntime countedTags) (.symbol "int8") =
      .error ⟨.rb_eTypeError, "invalid type, :int8"⟩ :=
  ⟨rbffi_Type_Init_eq countedTags, by decide, by decide, by decide⟩

/-- C4, amended. After initialization, for every tag `x` that the builtin
table binds to a descriptor (`T(x, ffiType)`): the constant of class
`FFI::Type` named after `x` is bound to a handle whose size and alignment are
those of that descriptor; find returns the handle when given the handle, and
when given a symbol or string once the handle has been registered under it.
Initialization itself leaves `typeMap` empty, so before such a registration
find fails on every symbol and string. -/
theorem init_canonical_descriptor (NATIVE : TagValues) (d : Descriptors) (host : Host)
    (x : NativeType) (ffiType : FfiTypeRef) (hx : Stmt.T x ffiType ∈ builtinTable) :
    ∃ rt h, rbffi_Type_Init NATIVE = .ok rt ∧
      rb_const_get rt.consts .classType x.name = .ok h ∧
      type_size d rt.heap h = .ok (INT2FIX (d ffiType).size) ∧
      type_alignment d rt.heap h = .ok (INT2FIX (d ffiType).alignment) ∧
      rbffi_Type_Find host rt h = .ok h ∧
      rt.typeMap = [] ∧
      ∀ k, (TYPE k = .T_SYMBOL ∨ TYPE k = .T_STRING) →
        (∃ e, rbffi_Type_Find host rt k = .error e) ∧
        rbffi_Type_Find host (registerType rt k h) k = .ok h := by
  refine ⟨initRuntime NATIVE, .obj .classBuiltinType x.toCtorIdx, rbffi_Type_Init_eq NATIVE,
    (initConsts_canonical x ffiType hx).2, ?_, ?_, ?_, rfl, ?_⟩
  · simp [type_size, initRuntime_struct NATIVE x ffiType hx, bind, Except.bind]
  · simp [type_alignment, initRuntime_struct NATIVE x ffiType hx, bind, Except.bind]
  · have hl := lookup_of_kind (initRuntime NATIVE) (.obj .classBuiltinType x.toCtorIdx) rfl
    have := find_of_lookup_kind host (initRuntime NATIVE) (.obj .classBuiltinType x.toCtorIdx)
      (by rw [hl]; rfl)
    rw [hl] at this
    exact this
  · intro k hk
    exact ⟨⟨_, find_of_lookup_nil host _ k (lookup_initRuntime_name NATIVE k hk)⟩,
      find_registerType host _ k _ hk rfl⟩

/-- Witness of the amended C4 at the line `T(INT8, &ffi_type_sint8)`. -/
theorem init_canonical_descriptor_witness :
    Stmt.T .INT8 .ffi_type_sint8 ∈ builtinTable ∧
    ∃ rt h, rbffi_Type_Init countedTags = .ok rt ∧
      rb_const_get rt.consts .classType NativeType.INT8.name = .ok h ∧
      type_size lp64 rt.heap h = .ok (INT2FIX (lp64 .ffi_type_sint8).size) ∧
      type_alignment lp64 rt.heap h = .ok (INT2FIX (lp64 .ffi_type_sint8).alignment) ∧
      rbffi_Type_Find plainHost rt h = .ok h ∧
      rt.typeMap = [] ∧
      ∀ k, (TYPE k = .T_SYMBOL ∨ TYPE k = .T_STRING) →
        (∃ e, rbffi_Type_Find plainHost rt k = .error e) ∧
        rbffi_Type_Find plainHost (registerType rt k h) k = .ok h :=
  ⟨by decide, init_canonical_descriptor countedTags lp64 plainHost .INT8 .ffi_type_sint8
    (by decide)⟩

/-- C5. For every alias line `A(old_type, new_type)` of the builtin table,
after initialization the constant `new_type` and the constant `old_type` of
class `FFI::Type` are bound to one and the same handle; the heap holds the
twenty structs of the `T` lines and no other, so no handle or descriptor was
created for the alias, and tag, size and alignment of the two names are read
from the same struct. -/
theorem alias_same_handle (NATIVE : TagValues) (d : Descriptors)
    (old_type new_type : String) (ha : Stmt.A old_type new_type ∈ builtinTable) :
    ∃ (rt : Runtime) (h : VALUE) (t : Type_), rbffi_Type_Init NATIVE = .ok rt ∧
      rb_const_get rt.consts .classType new_type = .ok h ∧
      rb_const_get rt.consts .classType old_type = .ok h ∧
      rt.heap.length = 20 ∧
      rbffi_Type_GetIntValue rt.heap h = .ok t.nativeType ∧
      type_size d rt.heap h = .ok (INT2FIX (d t.ffiType).size) ∧
      type_alignment d rt.heap h = .ok (INT2FIX (d t.ffiType).alignment) := by
  have hal := initConsts_alias _ ha
  simp only [Stmt.aliasBound, decide_eq_true_eq] at hal
  obtain ⟨x, hnew, hold⟩ := hal
  obtain ⟨f, _, hh⟩ := initRuntime_heap NATIVE x
  have hs : Data_Get_Struct (initRuntime NATIVE).heap (.obj .classBuiltinType x.toCtorIdx) =
      .ok { nativeType := NATIVE x, ffiType := f } := by
    simp [Data_Get_Struct, hh, builtinCell, Cell.asType]
  refine ⟨initRuntime NATIVE, .obj .classBuiltinType x.toCtorIdx,
    { nativeType := NATIVE x, ffiType := f }, rbffi_Type_Init_eq NATIVE, hnew, hold,
    initRuntime_heap_length NATIVE, ?_, ?_, ?_⟩
  · simp [rbffi_Type_GetIntValue, rb_obj_is_kind_of_Type, RClass.kindOfType, hs, bind,
      Except.bind]
  · simp [type_size, hs, bind, Except.bind]
  · simp [type_alignment, hs, bind, Except.bind]

/-- Witness of C5 at the line `A(INT8, CHAR)`. -/
theorem alias_same_handle_witness :
    Stmt.A "INT8" "CHAR" ∈ builtinTable ∧
    ∃ (rt : Runtime) (h : VALUE) (t : Type_), rbffi_Type_Init countedTags = .ok rt ∧
      rb_const_get rt.consts .classType "CHAR" = .ok h ∧
      rb_const_get rt.consts .classType "INT8" = .ok h ∧
      rt.heap.length = 20 ∧
      rbffi_Type_GetIntValue rt.heap h = .ok t.nativeType ∧
      type_size lp64 rt.heap h = .ok (INT2FIX (lp64 t.ffiType).size) ∧
      type_alignment lp64 rt.heap h = .ok (INT2FIX (lp64 t.ffiType).alignment) :=
  ⟨by decide, alias_same_handle countedTags lp64 "INT8" "CHAR" (by decide)⟩

/-! ## The resolver: byte sizes -/

/-- C6, as stated, fails: the integer `2^64` (a bignum) and the integer
`2^31` (a fixnum of the 64-bit host) are not returned; the conversion to
`int` raises `RangeError`. -/
theorem type_size_integer_counterexample :
    rbffi_type_size plainHost (initRuntime countedTags) (.bignum 18446744073709551616) =
      (.error ⟨.rb_eRangeError, "integer out of range of int"⟩, []) ∧
    rbffi_type_size plainHost (initRuntime countedTags) (.fixnum 2147483648) =
      (.error ⟨.rb_eRangeError, "integer out of range of int"⟩, []) := by
  decide

/-- C6, amended. For every integer `n` within the range of a C `int`, passed
as a fixnum or a bignum, `rbffi_type_size` returns `n` unchanged, whatever the
registry contains and without any dispatch to the host. -/
theorem type_size_integer (host : Host) (rt : Runtime) (n : Int)
    (h : INT_MIN ≤ n ∧ n ≤ INT_MAX) :
    rbffi_type_size host rt (.fixnum n) = (.ok n, []) ∧
    rbffi_type_size host rt (.bignum n) = (.ok n, []) := by
  simp [rbffi_type_size, TYPE, NUM2INT, check_int, h]

/-- Witness of the amended C6 at the literal byte count 42. -/
theorem type_size_integer_witness :
    (INT_MIN ≤ 42 ∧ (42 : Int) ≤ INT_MAX) ∧
    rbffi_type_size plainHost (initRuntime countedTags) (.fixnum 42) = (.ok 42, []) ∧
    rbffi_type_size plainHost (initRuntime countedTags) (.bignum 42) = (.ok 42, []) :=
  ⟨by decide, type_size_integer plainHost (initRuntime countedTags) 42 (by decide)⟩

/-- C7, as stated, fails: right after initialization find raises on
"pointer", as a string and as a symbol, so there is no handle whose size the
result could equal; for the string, `rbffi_type_size` answers with the
string's own size, 7, and for the symbol it hands the question to the host. -/
theorem resolve_pointer_after_init_counterexample :
    rbffi_Type_Init countedTags = .ok (initRuntime countedTags) ∧
    rbffi_Type_Find plainHost (initRuntime countedTags) (.string "pointer") =
      .error ⟨.rb_eTypeError, "invalid type, \"pointer\""⟩ ∧
    rbffi_type_size plainHost (initRuntime countedTags) (.string "pointer") =
      (.ok 7, [⟨.string "pointer", .id_size, []⟩]) ∧
    rbffi_Type_Find plainHost (initRuntime countedTags) (.symbol "pointer") =
      .error ⟨.rb_eTypeError, "invalid type, :pointer"⟩ ∧
    rbffi_type_size plainHost (initRuntime countedTags) (.symbol "pointer") =
      (.error ⟨.hostRaised 0, "undefined method"⟩,
        [⟨rbffi_FFIModule, .id_type_size, [.symbol "pointer"]⟩]) :=
  ⟨rbffi_Type_Init_eq countedTags, by decide, by decide, by decide, by decide⟩

/-- C7, amended. After initialization, once the symbol `:pointer` has been
registered in `typeMap` to the builtin POINTER handle and `sizeMap` holds that
handle's descriptor size, `rbffi_type_size(:pointer)` equals the size of
`find(:pointer)`, which is the size of the platform pointer descriptor. -/
theorem resolve_pointer_registered (NATIVE : TagValues) (d : Descriptors) (host : Host)
    (hsz : ((d .ffi_type_pointer).size : Int) ≤ INT_MAX) :
    ∃ rt p, rbffi_Type_Init NATIVE = .ok rt ∧
      rb_const_get rt.consts .classType "POINTER" = .ok p ∧
      rbffi_type_size host
        (registerSize (registerType rt (.symbol "pointer") p) p
          (INT2FIX (d .ffi_type_pointer).size)) (.symbol "pointer") =
        (.ok (d .ffi_type_pointer).size, []) ∧
      rbffi_Type_Find host
        (registerSize (registerType rt (.symbol "pointer") p) p
          (INT2FIX (d .ffi_type_pointer).size)) (.symbol "pointer") = .ok p ∧
      type_size d
        (registerSize (registerType rt (.symbol "pointer") p) p
          (INT2FIX (d .ffi_type_pointer).size)).heap p =
        .ok (INT2FIX (d .ffi_type_pointer).size) := by
  have hx : Stmt.T .POINTER .ffi_type_pointer ∈ builtinTable := by decide
  have hmin : INT_MIN ≤ ((d .ffi_type_pointer).size : Int) :=
    le_trans (by decide) (Int.ofNat_nonneg _)
  refine ⟨initRuntime NATIVE, .obj .classBuiltinType NativeType.POINTER.toCtorIdx,
    rbffi_Type_Init_eq NATIVE, (initConsts_canonical _ _ hx).2, ?_, ?_, ?_⟩
  · simp [rbffi_type_size, TYPE, registerSize, registerType, rb_hash_aref_aset_same, INT2FIX,
      FIX2INT, check_int, hsz, hmin]
  · exact find_registerType host _ _ _ (Or.inl rfl) rfl
  · have hs := initRuntime_struct NATIVE _ _ hx
    simp [type_size, registerSize, registerType, hs, bind, Except.bind]

/-- Witness of the amended C7 on the 64-bit target: the size is 8. -/
theorem resolve_pointer_registered_witness :
    (((lp64 .ffi_type_pointer).size : Int) ≤ INT_MAX) ∧
    ∃ rt p, rbffi_Type_Init countedTags = .ok rt ∧
      rb_const_get rt.consts .classType "POINTER" = .ok p ∧
      rbffi_type_size plainHost
        (registerSize (registerType rt (.symbol "pointer") p) p
          (INT2FIX (lp64 .ffi_type_pointer).size)) (.symbol "pointer") =
        (.ok (lp64 .ffi_type_pointer).size, []) ∧
      rbffi_Type_Find plainHost
        (registerSize (registerType rt (.symbol "pointer") p) p
          (INT2FIX (lp64 .ffi_type_pointer).size)) (.symbol "pointer") = .ok p ∧
      type_size lp64
        (registerSize (registerType rt (.symbol "pointer") p) p
          (INT2FIX (lp64 .ffi_type_pointer).size)).heap p =
        .ok (INT2FIX (lp64 .ffi_type_pointer).size) :=
  ⟨by decide, resolve_pointer_registered countedTags lp64 plainHost (by decide)⟩

/-- C8, as stated, fails for a string: with the string "int" registered to
the INT32 builtin and that handle given the size 4 in `sizeMap`, lookup finds
the handle, yet `rbffi_type_size("int")` consults neither hash: it asks the
string for its own size and returns 3. -/
theorem type_size_string_counterexample :
    rbffi_Type_Lookup
      (registerSize (registerType (initRuntime countedTags) (.string "int")
        (.obj .classBuiltinType 5)) (.obj .classBuiltinType 5) (.fixnum 4))
      (.string "int") = .obj .classBuiltinType 5 ∧
    rb_hash_aref
      (registerSize (registerType (initRuntime countedTags) (.string "int")
        (.obj .classBuiltinType 5)) (.obj .classBuiltinType 5) (.fixnum 4)).sizeMap
      (.obj .classBuiltinType 5) = .fixnum 4 ∧
    rbffi_type_size plainHost
      (registerSize (registerType (initRuntime countedTags) (.string "int")
        (.obj .classBuiltinType 5)) (.obj .classBuiltinType 5) (.fixnum 4))
      (.string "int") = (.ok 3, [⟨.string "int", .id_size, []⟩]) := by
  decide

/-- C8, amended. For every symbol `k`, `rbffi_type_size(k)` first reads
`typeMap` and then `sizeMap`: when `k` is registered to a value that has a
fixnum entry within the range of `int` in `sizeMap`, that entry is returned and
the host is not called; when `typeMap` has no value for `k`, the host's
`FFI.type_size` is called exactly once with `k`, and its result (an integer
within the range of `int`) or its failure is returned as it is. -/
theorem type_size_symbol (host : Host) (rt : Runtime) (name : String) :
    (∀ n, rb_hash_aref rt.typeMap (.symbol name) ≠ .Qnil →
        rb_hash_aref rt.sizeMap (rb_hash_aref rt.typeMap (.symbol name)) = .fixnum n →
        INT_MIN ≤ n ∧ n ≤ INT_MAX →
        rbffi_type_size host rt (.symbol name) = (.ok n, [])) ∧
    (rb_hash_aref rt.typeMap (.symbol name) = .Qnil →
      rbffi_type_size host rt (.symbol name) =
          (host.rb_funcall2 ⟨rbffi_FFIModule, .id_type_size, [.symbol name]⟩ >>= NUM2INT host,
            [⟨rbffi_FFIModule, .id_type_size, [.symbol name]⟩]) ∧
        (∀ n, host.rb_funcall2 ⟨rbffi_FFIModule, .id_type_size, [.symbol name]⟩ =
            .ok (.fixnum n) → INT_MIN ≤ n ∧ n ≤ INT_MAX →
          rbffi_type_size host rt (.symbol name) =
            (.ok n, [⟨rbffi_FFIModule, .id_type_size, [.symbol name]⟩])) ∧
        (∀ e, host.rb_funcall2 ⟨rbffi_FFIModule, .id_type_size, [.symbol name]⟩ = .error e →
          rbffi_type_size host rt (.symbol name) =
            (.error e, [⟨rbffi_FFIModule, .id_type_size, [.symbol name]⟩]))) := by
  constructor
  · intro n hn hs hr
    simp [rbffi_type_size, TYPE, hn, hs, FIX2INT, check_int, hr]
  · intro hnil
    have heq : rbffi_type_size host rt (.symbol name) =
        (host.rb_funcall2 ⟨rbffi_FFIModule, .id_type_size, [.symbol name]⟩ >>= NUM2INT host,
          [⟨rbffi_FFIModule, .id_type_size, [.symbol name]⟩]) := by
      simp [rbffi_type_size, TYPE, hnil]
    refine ⟨heq, ?_, ?_⟩
    · intro n hn hr
      rw [heq, hn]
      simp [bind, Except.bind, NUM2INT, check_int, hr]
    · intro e he
      rw [heq, he]
      rfl

/-- Witness of the amended C8: the symbol `:int` registered to the INT32
builtin with the size 4 resolves to 4 without a call, and the unregistered
symbol `:widget` is handed to the host once, whose failure is returned. -/
theorem type_size_symbol_witness :
    rbffi_type_size plainHost
      (registerSize (registerType (initRuntime countedTags) (.symbol "int")
        (.obj .classBuiltinType 5)) (.obj .classBuiltinType 5) (.fixnum 4))
      (.symbol "int") = (.ok 4, []) ∧
    rbffi_type_size plainHost (initRuntime countedTags) (.symbol "widget") =
      (.error ⟨.hostRaised 0, "undefined method"⟩,
        [⟨rbffi_FFIModule, .id_type_size, [.symbol "widget"]⟩]) :=
  ⟨(type_size_symbol plainHost _ "int").1 4 (by decide) (by decide) (by decide),
    ((type_size_symbol plainHost (initRuntime countedTags) "widget").2 (by decide)).2.2
      ⟨.hostRaised 0, "undefined method"⟩ (by decide)⟩

/-- C9. For every identifier that is neither an integer nor a symbol (a
string included or not), `rbffi_type_size` makes exactly one dispatch, `size`
on the identifier itself, and returns what it reports (converted to `int`):
an integer within the range of `int` is returned unchanged and a failure is
passed on. The registry is not consulted: the result is the same in every
registry state. -/
theorem type_size_other (host : Host) (rt other : Runtime) (v : VALUE)
    (h1 : TYPE v ≠ .T_FIXNUM) (h2 : TYPE v ≠ .T_BIGNUM) (h3 : TYPE v ≠ .T_SYMBOL) :
    rbffi_type_size host rt v =
        (host.rb_funcall2 ⟨v, .id_size, []⟩ >>= NUM2INT host, [⟨v, .id_size, []⟩]) ∧
    rbffi_type_size host other v = rbffi_type_size host rt v ∧
    (∀ n, host.rb_funcall2 ⟨v, .id_size, []⟩ = .ok (.fixnum n) → INT_MIN ≤ n ∧ n ≤ INT_MAX →
      rbffi_type_size host rt v = (.ok n, [⟨v, .id_size, []⟩])) ∧
    (∀ e, host.rb_funcall2 ⟨v, .id_size, []⟩ = .error e →
      rbffi_type_size host rt v = (.error e, [⟨v, .id_size, []⟩])) := by
  have heq : ∀ r : Runtime, rbffi_type_size host r v =
      (host.rb_funcall2 ⟨v, .id_size, []⟩ >>= NUM2INT host, [⟨v, .id_size, []⟩]) := by
    intro r
    simp [rbffi_type_size, h1, h2, h3]
  refine ⟨heq rt, by rw [heq rt, heq other], ?_, ?_⟩
  · intro n hn hr
    rw [heq, hn]
    simp [bind, Except.bind, NUM2INT, check_int, hr]
  · intro e he
    rw [heq, he]
    rfl

/-- Witness of C9 on the builtin POINTER handle of the 64-bit target, which
reports the size 8. -/
theorem type_size_other_witness :
    rbffi_type_size plainHost (initRuntime countedTags) (.obj .classBuiltinType 13) =
      (.ok 8, [⟨.obj .classBuiltinType 13, .id_size, []⟩]) ∧
    rbffi_type_size plainHost freshRuntime (.obj .classBuiltinType 13) =
      rbffi_type_size plainHost (initRuntime countedTags) (.obj .classBuiltinType 13) :=
  ⟨(type_size_other plainHost (initRuntime countedTags) freshRuntime
      (.obj .classBuiltinType 13) (by decide) (by decide) (by decide)).2.2.1 8
      (by decide) (by decide),
    (type_size_other plainHost (initRuntime countedTags) freshRuntime
      (.obj .classBuiltinType 13) (by decide) (by decide) (by decide)).2.1⟩

/-! ## Construction of generic handles -/

/-- C10, as stated, fails: construction from the integer 1000 succeeds and
yields a handle with tag 1000; and under no numbering of the twenty tags does
construction fail on every integer that is not the value of a tag. -/
theorem type_new_unrecognized_counterexample :
    type_new (initRuntime countedTags).heap .rbffi_TypeClass (.fixnum 1000) =
      .ok ((initRuntime countedTags).heap ++
          [Cell.generic { nativeType := 1000, ffiType := .ffi_type_void }],
        .obj .rbffi_TypeClass 20) ∧
    (∀ x, countedTags x ≠ 1000) ∧
    ¬ ∃ NATIVE : TagValues, ∀ n : Int, (∀ x, NATIVE x ≠ n) →
        ∃ e, type_new (initRuntime NATIVE).heap .rbffi_TypeClass (.fixnum n) = .error e := by
  refine ⟨type_new_fixnum_ok _ _ 1000 (by decide), by decide, ?_⟩
  rintro ⟨NATIVE, hN⟩
  have hcard : (Finset.univ.image NATIVE).card < (Finset.Icc (0 : Int) 20).card := by
    have h1 : (Finset.univ.image NATIVE).card ≤ (Finset.univ : Finset NativeType).card :=
      Finset.card_image_le
    have h2 : (Finset.univ : Finset NativeType).card = 20 := rfl
    have h3 : (Finset.Icc (0 : Int) 20).card = 21 := by simp
    omega
  have hex : ∃ n ∈ Finset.Icc (0 : Int) 20, n ∉ Finset.univ.image NATIVE := by
    by_contra hall
    push_neg at hall
    have hsub : Finset.Icc (0 : Int) 20 ⊆ Finset.univ.image NATIVE := fun n hn => hall n hn
    have := Finset.card_le_card hsub
    omega
  obtain ⟨n, hn, hnot⟩ := hex
  have hne : ∀ x, NATIVE x ≠ n := fun x hx =>
    hnot (Finset.mem_image.mpr ⟨x, Finset.mem_univ x, hx⟩)
  obtain ⟨e, he⟩ := hN n hne
  rw [Finset.mem_Icc] at hn
  have hr : INT_MIN ≤ n ∧ n ≤ INT_MAX := by
    constructor
    · exact le_trans (by decide) hn.1
    · exact le_trans hn.2 (by decide)
  rw [type_new_fixnum_ok _ _ n hr] at he
  cases he

/-- C10, amended. Constructing a generic handle from a small integer does
not check it against the tags: every integer within the range of a C `int`
is accepted, recognized or not, and becomes the tag of the new handle, whose
descriptor stays the void descriptor. An argument error is raised when the
value is neither a small integer nor a handle. -/
theorem type_new_fixnum (heap : Heap) (klass : RClass) :
    (∀ n : Int, INT_MIN ≤ n ∧ n ≤ INT_MAX →
      type_new heap klass (.fixnum n) =
        .ok (heap ++ [Cell.generic { nativeType := n, ffiType := .ffi_type_void }],
          .obj klass heap.length)) ∧
    (∀ v, FIXNUM_P v = false → rb_obj_is_kind_of_Type v = false →
      type_new heap klass v = .error ⟨.rb_eArgError, "wrong type"⟩) := by
  refine ⟨fun n h => type_new_fixnum_ok heap klass n h, ?_⟩
  intro v hf hk
  simp [type_new, type_allocate, type_initialize, Data_Get_Struct, hf, hk, rb_raise, bind,
    Except.bind]

/-- Witness of the amended C10: the integer `-7` is accepted as a tag, and
the string "INT8" is rejected with an argument error. -/
theorem type_new_fixnum_witness :
    type_new (initRuntime countedTags).heap .rbffi_TypeClass (.fixnum (-7)) =
      .ok ((initRuntime countedTags).heap ++
          [Cell.generic { nativeType := -7, ffiType := .ffi_type_void }],
        .obj .rbffi_TypeClass (initRuntime countedTags).heap.length) ∧
    type_new (initRuntime countedTags).heap .rbffi_TypeClass (.string "INT8") =
      .error ⟨.rb_eArgError, "wrong type"⟩ :=
  ⟨(type_new_fixnum (initRuntime countedTags).heap .rbffi_TypeClass).1 (-7) (by decide),
    (type_new_fixnum (initRuntime countedTags).heap .rbffi_TypeClass).2 (.string "INT8")
      rfl rfl⟩

/-! ## Facts about construction -/

/-- A struct of the heap is still read after the heap has grown. -/
theorem Data_Get_Struct_append (heap more : Heap) (v : VALUE) (t : Type_)
    (h : Data_Get_Struct heap v = .ok t) : Data_Get_Struct (heap ++ more) v = .ok t := by
  cases v with
  | obj k addr =>
    simp only [Data_Get_Struct] at h ⊢
    cases hc : heap[addr]? with
    | none => rw [hc] at h; cases h
    | some c =>
      rw [hc] at h
      have hlt : addr < heap.length := by
        by_contra hge
        rw [List.getElem?_eq_none (Nat.le_of_not_lt hge)] at hc
        cases hc
      rw [List.getElem?_append_left hlt, hc]
      exact h
  | _ => cases h

/-- A struct of the heap sits below the heap's end. -/
theorem Data_Get_Struct_addr_lt (heap : Heap) (k : RClass) (addr : Nat) (t : Type_)
    (h : Data_Get_Struct heap (.obj k addr) = .ok t) : addr < heap.length := by
  simp only [Data_Get_Struct] at h
  by_contra hge
  rw [List.getElem?_eq_none (Nat.le_of_not_lt hge)] at h
  cases h

/-- The struct just appended is the one behind the new object. -/
theorem Data_Get_Struct_fresh (heap : Heap) (k : RClass) (c : Cell) :
    Data_Get_Struct (heap ++ [c]) (.obj k heap.length) = .ok c.asType := by
  simp [Data_Get_Struct]

/-- Construction by copy from a live handle succeeds: the new struct is a
plain `Type` holding the tag and the descriptor pointer of the original. -/
theorem type_new_copy_ok (heap : Heap) (klass : RClass) (h : VALUE) (t : Type_)
    (hk : rb_obj_is_kind_of_Type h = true) (hs : Data_Get_Struct heap h = .ok t) :
    type_new heap klass h =
      .ok (heap ++ [Cell.generic { nativeType := t.nativeType, ffiType := t.ffiType }],
        .obj klass heap.length) := by
  have hf : FIXNUM_P h = false := by
    cases h <;> simp_all [FIXNUM_P, rb_obj_is_kind_of_Type]
  have hs1 := Data_Get_Struct_append heap
    [Cell.generic { nativeType := -1, ffiType := .ffi_type_void }] h t hs
  simp [type_new, type_allocate, type_initialize, Data_Get_Struct_fresh, hf, hk, hs1, store,
    modify_concat_length, Cell.setType, bind, Except.bind]

/-- The table binds the void descriptor to VOID and VARARGS and to no other tag. -/
theorem tableDescriptor_void (x : NativeType) :
    tableDescriptor x = some .ffi_type_void ↔ x = .VOID ∨ x = .VARARGS := by
  cases x <;> decide

/-- C11, as stated, fails: the generic handle constructed from the integer
value of INT32 carries the tag of INT32 but the void descriptor, not the
descriptor `ffi_type_sint32` that the table binds to INT32; on the 64-bit
target it reports size 0 where the builtin INT32 handle reports size 4. -/
theorem type_new_tag_descriptor_counterexample :
    type_new (initRuntime countedTags).heap .rbffi_TypeClass (.fixnum (countedTags .INT32)) =
      .ok ((initRuntime countedTags).heap ++
          [Cell.generic { nativeType := countedTags .INT32, ffiType := .ffi_type_void }],
        .obj .rbffi_TypeClass 20) ∧
    tableDescriptor .INT32 = some .ffi_type_sint32 ∧
    type_size lp64
      ((initRuntime countedTags).heap ++
        [Cell.generic { nativeType := countedTags .INT32, ffiType := .ffi_type_void }])
      (.obj .rbffi_TypeClass 20) = .ok (.fixnum 0) ∧
    rb_const_get (initRuntime countedTags).consts .classType "INT32" =
      .ok (.obj .classBuiltinType 5) ∧
    type_size lp64 (initRuntime countedTags).heap (.obj .classBuiltinType 5) =
      .ok (.fixnum 4) := by
  refine ⟨type_new_fixnum_ok _ _ _ (by decide), by decide, by decide, by decide, by decide⟩

/-- C11, amended. For every recognized tag `x` (its integer value fitting a
C `int`), constructing a generic handle from the integer value of `x`
succeeds and yields a handle whose tag is `x`; its descriptor is the void
descriptor set at allocation, so its size and alignment are those of the
void descriptor, which is the descriptor the builtin table binds to `x` only
for VOID and VARARGS. -/
theorem type_new_tag (NATIVE : TagValues) (d : Descriptors) (heap : Heap) (klass : RClass)
    (x : NativeType) (hr : INT_MIN ≤ NATIVE x ∧ NATIVE x ≤ INT_MAX)
    (hk : klass.kindOfType = true) :
    ∃ heap1 g, type_new heap klass (.fixnum (NATIVE x)) = .ok (heap1, g) ∧
      rbffi_Type_GetIntValue heap1 g = .ok (NATIVE x) ∧
      Data_Get_Struct heap1 g = .ok { nativeType := NATIVE x, ffiType := .ffi_type_void } ∧
      type_size d heap1 g = .ok (INT2FIX (d .ffi_type_void).size) ∧
      type_alignment d heap1 g = .ok (INT2FIX (d .ffi_type_void).alignment) ∧
      (tableDescriptor x = some .ffi_type_void ↔ x = .VOID ∨ x = .VARARGS) := by
  refine ⟨_, _, type_new_fixnum_ok heap klass (NATIVE x) hr, ?_, ?_, ?_, ?_,
    tableDescriptor_void x⟩
  · simp [rbffi_Type_GetIntValue, rb_obj_is_kind_of_Type, hk, Data_Get_Struct_fresh,
      Cell.asType, bind, Except.bind]
  · simp [Data_Get_Struct_fresh, Cell.asType]
  · simp [type_size, Data_Get_Struct_fresh, Cell.asType, bind, Except.bind]
  · simp [type_alignment, Data_Get_Struct_fresh, Cell.asType, bind, Except.bind]

/-- Witness of the amended C11 at the tag INT32. -/
theorem type_new_tag_witness :
    (INT_MIN ≤ countedTags .INT32 ∧ countedTags .INT32 ≤ INT_MAX) ∧
    RClass.rbffi_TypeClass.kindOfType = true ∧
    ∃ heap1 g,
      type_new (initRuntime countedTags).heap .rbffi_TypeClass (.fixnum (countedTags .INT32)) =
        .ok (heap1, g) ∧
      rbffi_Type_GetIntValue heap1 g = .ok (countedTags .INT32) ∧
      Data_Get_Struct heap1 g =
        .ok { nativeType := countedTags .INT32, ffiType := .ffi_type_void } ∧
      type_size lp64 heap1 g = .ok (INT2FIX (lp64 .ffi_type_void).size) ∧
      type_alignment lp64 heap1 g = .ok (INT2FIX (lp64 .ffi_type_void).alignment) ∧
      (tableDescriptor .INT32 = some .ffi_type_void ↔
        NativeType.INT32 = .VOID ∨ NativeType.INT32 = .VARARGS) :=
  ⟨by decide, rfl,
    type_new_tag countedTags lp64 (initRuntime countedTags).heap .rbffi_TypeClass .INT32
      (by decide) rfl⟩

/-- C12. For every live handle `h`, generic or builtin, constructing a handle
by copy from `h` succeeds and yields a new object, distinct from `h`, of the
class that was instantiated, wrapping a plain `Type` struct (no name) with the
tag and the descriptor of `h`; so its size and alignment are those of `h`,
and `h` itself is left as it was. -/
theorem type_new_copy (d : Descriptors) (heap : Heap) (klass : RClass) (h : VALUE) (t : Type_)
    (hk : rb_obj_is_kind_of_Type h = true) (hs : Data_Get_Struct heap h = .ok t) :
    ∃ heap1 g, type_new heap klass h = .ok (heap1, g) ∧
      g = .obj klass heap.length ∧ g ≠ h ∧
      heap1[heap.length]? = some (Cell.generic t) ∧
      Data_Get_Struct heap1 g = .ok t ∧
      type_size d heap1 g = type_size d heap h ∧
      type_alignment d heap1 g = type_alignment d heap h ∧
      Data_Get_Struct heap1 h = .ok t := by
  refine ⟨_, _, type_new_copy_ok heap klass h t hk hs, rfl, ?_, ?_, ?_, ?_, ?_, ?_⟩
  · intro e
    subst e
    exact absurd (Data_Get_Struct_addr_lt heap klass heap.length t hs) (Nat.lt_irrefl _)
  · simp
  · simp [Data_Get_Struct_fresh, Cell.asType]
  · simp [type_size, Data_Get_Struct_fresh, Cell.asType, hs, bind, Except.bind]
  · simp [type_alignment, Data_Get_Struct_fresh, Cell.asType, hs, bind, Except.bind]
  · exact Data_Get_Struct_append heap _ h t hs

/-- Witness of C12: a copy of the builtin INT32 handle of the initialized
runtime. -/
theorem type_new_copy_witness :
    rb_obj_is_kind_of_Type (.obj .classBuiltinType 5) = true ∧
    Data_Get_Struct (initRuntime countedTags).heap (.obj .classBuiltinType 5) =
      .ok { nativeType := 5, ffiType := .ffi_type_sint32 } ∧
    ∃ heap1 g,
      type_new (initRuntime countedTags).heap .rbffi_TypeClass (.obj .classBuiltinType 5) =
        .ok (heap1, g) ∧
      g = .obj .rbffi_TypeClass (initRuntime countedTags).heap.length ∧
      g ≠ .obj .classBuiltinType 5 ∧
      heap1[(initRuntime countedTags).heap.length]? =
        some (Cell.generic { nativeType := 5, ffiType := .ffi_type_sint32 }) ∧
      Data_Get_Struct heap1 g = .ok { nativeType := 5, ffiType := .ffi_type_sint32 } ∧
      type_size lp64 heap1 g =
        type_size lp64 (initRuntime countedTags).heap (.obj .classBuiltinType 5) ∧
      type_alignment lp64 heap1 g =
        type_alignment lp64 (initRuntime countedTags).heap (.obj .classBuiltinType 5) ∧
      Data_Get_Struct heap1 (.obj .classBuiltinType 5) =
        .ok { nativeType := 5, ffiType := .ffi_type_sint32 } :=
  ⟨rfl, by decide,
    type_new_copy lp64 (initRuntime countedTags).heap .rbffi_TypeClass
      (.obj .classBuiltinType 5) { nativeType := 5, ffiType := .ffi_type_sint32 } rfl
      (by decide)⟩

/-! ## The builtin table: descriptors -/

/-- On the modelled 64-bit descriptors, the table gives VOID size 0 and every
tag but VOID and VARARGS a positive size and alignment; the void descriptor
is bound to VOID and VARARGS only. -/
theorem builtinTable_lp64 :
    ∀ (x : NativeType) (ffiType : FfiTypeRef), Stmt.T x ffiType ∈ builtinTable →
      (x = .VOID → (lp64 ffiType).size = 0) ∧
      (x ≠ .VOID → x ≠ .VARARGS → 0 < (lp64 ffiType).size ∧ 0 < (lp64 ffiType).alignment) ∧
      (ffiType = .ffi_type_void ↔ x = .VOID ∨ x = .VARARGS) := by
  decide

/-- C13. In the builtin table, with the descriptors modelled from the spec:
the builtin VOID handle has size 0, and every builtin handle other than VOID
and VARARGS has size > 0 and alignment > 0. The table binds the void
descriptor to VOID and VARARGS and to no other tag. -/
theorem builtin_sizes (NATIVE : TagValues) (x : NativeType) (ffiType : FfiTypeRef)
    (hx : Stmt.T x ffiType ∈ builtinTable) :
    ∃ rt h size alignment, rbffi_Type_Init NATIVE = .ok rt ∧
      rb_const_get rt.consts .classType x.name = .ok h ∧
      type_size lp64 rt.heap h = .ok (INT2FIX (size : Nat)) ∧
      type_alignment lp64 rt.heap h = .ok (INT2FIX (alignment : Nat)) ∧
      (x = .VOID → size = 0) ∧
      (x ≠ .VOID → x ≠ .VARARGS → 0 < size ∧ 0 < alignment) ∧
      (ffiType = .ffi_type_void ↔ x = .VOID ∨ x = .VARARGS) := by
  obtain ⟨h1, h2, h3⟩ := builtinTable_lp64 x ffiType hx
  refine ⟨initRuntime NATIVE, .obj .classBuiltinType x.toCtorIdx, (lp64 ffiType).size,
    (lp64 ffiType).alignment, rbffi_Type_Init_eq NATIVE, (initConsts_canonical x ffiType hx).2,
    ?_, ?_, h1, h2, h3⟩
  · simp [type_size, initRuntime_struct NATIVE x ffiType hx, bind, Except.bind]
  · simp [type_alignment, initRuntime_struct NATIVE x ffiType hx, bind, Except.bind]

/-- Witness of C13 at the line `T(VOID, &ffi_type_void)`. -/
theorem builtin_sizes_witness :
    Stmt.T .VOID .ffi_type_void ∈ builtinTable ∧
    ∃ rt h size alignment, rbffi_Type_Init countedTags = .ok rt ∧
      rb_const_get rt.consts .classType NativeType.VOID.name = .ok h ∧
      type_size lp64 rt.heap h = .ok (INT2FIX (size : Nat)) ∧
      type_alignment lp64 rt.heap h = .ok (INT2FIX (alignment : Nat)) ∧
      (NativeType.VOID = .VOID → size = 0) ∧
      (NativeType.VOID ≠ .VOID → NativeType.VOID ≠ .VARARGS → 0 < size ∧ 0 < alignment) ∧
      (FfiTypeRef.ffi_type_void = .ffi_type_void ↔
        NativeType.VOID = .VOID ∨ NativeType.VOID = .VARARGS) :=
  ⟨by decide, builtin_sizes countedTags .VOID .ffi_type_void (by decide)⟩

/-- C15. The builtin types STRING, BUFFER_IN, BUFFER_OUT and BUFFER_INOUT
reuse the pointer descriptor: after initialization the handle of each wraps
the descriptor pointer `&ffi_type_pointer`, as the POINTER handle does, and
reports the same size and the same alignment as the POINTER handle, whatever
the platform's descriptors are. -/
theorem pointer_descriptor_shared (NATIVE : TagValues) (d : Descriptors) (x : NativeType)
    (hx : x = .STRING ∨ x = .BUFFER_IN ∨ x = .BUFFER_OUT ∨ x = .BUFFER_INOUT) :
    ∃ rt h p, rbffi_Type_Init NATIVE = .ok rt ∧
      rb_const_get rt.consts .classType x.name = .ok h ∧
      rb_const_get rt.consts .classType "POINTER" = .ok p ∧
      Data_Get_Struct rt.heap h = .ok { nativeType := NATIVE x, ffiType := .ffi_type_pointer } ∧
      Data_Get_Struct rt.heap p =
        .ok { nativeType := NATIVE .POINTER, ffiType := .ffi_type_pointer } ∧
      type_size d rt.heap h = type_size d rt.heap p ∧
      type_size d rt.heap p = .ok (INT2FIX (d .ffi_type_pointer).size) ∧
      type_alignment d rt.heap h = type_alignment d rt.heap p ∧
      type_alignment d rt.heap p = .ok (INT2FIX (d .ffi_type_pointer).alignment) := by
  have hp : Stmt.T .POINTER .ffi_type_pointer ∈ builtinTable := by decide
  have hm : Stmt.T x .ffi_type_pointer ∈ builtinTable := by
    rcases hx with rfl | rfl | rfl | rfl <;> decide
  have sp := initRuntime_struct NATIVE _ _ hp
  have sx := initRuntime_struct NATIVE _ _ hm
  refine ⟨initRuntime NATIVE, .obj .classBuiltinType x.toCtorIdx,
    .obj .classBuiltinType NativeType.POINTER.toCtorIdx, rbffi_Type_Init_eq NATIVE,
    (initConsts_canonical _ _ hm).2, (initConsts_canonical _ _ hp).2, sx, sp, ?_, ?_, ?_, ?_⟩
  · simp [type_size, sx, sp, bind, Except.bind]
  · simp [type_size, sp, bind, Except.bind]
  · simp [type_alignment, sx, sp, bind, Except.bind]
  · simp [type_alignment, sp, bind, Except.bind]

/-- Witness of C15 at BUFFER_OUT. -/
theorem pointer_descriptor_shared_witness :
    ∃ rt h p, rbffi_Type_Init countedTags = .ok rt ∧
      rb_const_get rt.consts .classType NativeType.BUFFER_OUT.name = .ok h ∧
      rb_const_get rt.consts .classType "POINTER" = .ok p ∧
      Data_Get_Struct rt.heap h =
        .ok { nativeType := countedTags .BUFFER_OUT, ffiType := .ffi_type_pointer } ∧
      Data_Get_Struct rt.heap p =
        .ok { nativeType := countedTags .POINTER, ffiType := .ffi_type_pointer } ∧
      type_size lp64 rt.heap h = type_size lp64 rt.heap p ∧
      type_size lp64 rt.heap p = .ok (INT2FIX (lp64 .ffi_type_pointer).size) ∧
      type_alignment lp64 rt.heap h = type_alignment lp64 rt.heap p ∧
      type_alignment lp64 rt.heap p = .ok (INT2FIX (lp64 .ffi_type_pointer).alignment) :=
  pointer_descriptor_shared countedTags lp64 .BUFFER_OUT (Or.inr (Or.inr (Or.inl rfl)))

/-! ## Registration -/

/-- C14. For every registry state, symbol or string `n` and handle `h`:
after `h` is registered under `n` in `typeMap`, lookup of `n` returns `h`, and
lookup of every other identifier `m` returns what it returned before; so the
other names of the type that `n` denoted still resolve to the original handle. -/
theorem registerType_frame (rt : Runtime) (n h : VALUE)
    (hn : TYPE n = .T_SYMBOL ∨ TYPE n = .T_STRING)
    (hh : rb_obj_is_kind_of_Type h = true) :
    rbffi_Type_Lookup (registerType rt n h) n = h ∧
    ∀ m, m ≠ n → rbffi_Type_Lookup (registerType rt n h) m = rbffi_Type_Lookup rt m := by
  have hne : h ≠ .Qnil := by
    intro e; subst e; simp [rb_obj_is_kind_of_Type] at hh
  constructor
  · rw [lookup_of_name _ _ hn]
    simp [registerType, rb_hash_aref_aset_same, hne, hh]
  · intro m hm
    simp only [rbffi_Type_Lookup, registerType]
    rw [rb_hash_aref_aset_ne rt.typeMap n m h (Ne.symm hm)]

/-- Witness of C14: `:int` and `:sint` both denote the INT32 builtin; after
`:int` is registered anew to the INT64 builtin, `:int` resolves to INT64 and
`:sint` still resolves to INT32. -/
theorem registerType_frame_witness :
    (rbffi_Type_Lookup
        (registerType
          (registerType (registerType (initRuntime countedTags) (.symbol "int")
            (.obj .classBuiltinType 5)) (.symbol "sint") (.obj .classBuiltinType 5))
          (.symbol "int") (.obj .classBuiltinType 7)) (.symbol "int") =
        .obj .classBuiltinType 7 ∧
      ∀ m, m ≠ VALUE.symbol "int" →
        rbffi_Type_Lookup
          (registerType
            (registerType (registerType (initRuntime countedTags) (.symbol "int")
              (.obj .classBuiltinType 5)) (.symbol "sint") (.obj .classBuiltinType 5))
            (.symbol "int") (.obj .classBuiltinType 7)) m =
        rbffi_Type_Lookup
          (registerType (registerType (initRuntime countedTags) (.symbol "int")
            (.obj .classBuiltinType 5)) (.symbol "sint") (.obj .classBuiltinType 5)) m) ∧
    rbffi_Type_Lookup
      (registerType
        (registerType (registerType (initRuntime countedTags) (.symbol "int")
          (.obj .classBuiltinType 5)) (.symbol "sint") (.obj .classBuiltinType 5))
        (.symbol "int") (.obj .classBuiltinType 7)) (.symbol "sint") =
      .obj .classBuiltinType 5 :=
  ⟨registerType_frame _ (.symbol "int") (.obj .classBuiltinType 7) (Or.inl rfl) rfl,
    by decide⟩

/-! ## The tag accessor -/

/-- C16. For every value `v`, `rbffi_Type_GetIntValue(v)` fails, with a
`TypeError`, if and only if `v` is not a live handle; on a value outside the
kind of `FFI::Type` the message is "wrong type.  Expected (FFI::Type)"; on a
handle it returns exactly the tag stored in the handle's struct. -/
theorem GetIntValue_iff (heap : Heap) (v : VALUE) :
    ((∃ msg, rbffi_Type_GetIntValue heap v = .error ⟨.rb_eTypeError, msg⟩) ↔
      isTypeHandle heap v = false) ∧
    ((∃ e, rbffi_Type_GetIntValue heap v = .error e) ↔ isTypeHandle heap v = false) ∧
    (rb_obj_is_kind_of_Type v = false →
      rbffi_Type_GetIntValue heap v =
        .error ⟨.rb_eTypeError, "wrong type.  Expected (FFI::Type)"⟩) ∧
    (∀ t, rb_obj_is_kind_of_Type v = true → Data_Get_Struct heap v = .ok t →
      isTypeHandle heap v = true ∧ rbffi_Type_GetIntValue heap v = .ok t.nativeType) := by
  by_cases hk : rb_obj_is_kind_of_Type v = true
  · cases hs : Data_Get_Struct heap v with
    | ok t =>
      have hg : rbffi_Type_GetIntValue heap v = .ok t.nativeType := by
        simp [rbffi_Type_GetIntValue, hk, hs, bind, Except.bind]
      have hi : isTypeHandle heap v = true := by simp [isTypeHandle, hk, hs]
      refine ⟨?_, ?_, ?_, ?_⟩
      · rw [hg, hi]; simp
      · rw [hg, hi]; simp
      · intro hf; rw [hk] at hf; cases hf
      · intro t1 _ ht1
        cases ht1
        exact ⟨hi, hg⟩
    | error e =>
      have he : ∃ msg, e = ⟨.rb_eTypeError, msg⟩ := by
        cases v <;> simp_all [Data_Get_Struct, rb_raise, rb_obj_is_kind_of_Type]
        split at hs <;> simp_all
        exact ⟨_, hs.symm⟩
      have hg : rbffi_Type_GetIntValue heap v = .error e := by
        simp [rbffi_Type_GetIntValue, hk, hs, bind, Except.bind]
      have hi : isTypeHandle heap v = false := by simp [isTypeHandle, hk, hs]
      obtain ⟨msg, rfl⟩ := he
      refine ⟨?_, ?_, ?_, ?_⟩
      · rw [hg, hi]; simp
      · rw [hg, hi]; simp
      · intro hf; rw [hk] at hf; cases hf
      · intro t1 _ ht1; cases ht1
  · have hf : rb_obj_is_kind_of_Type v = false := by simpa using hk
    have hg : rbffi_Type_GetIntValue heap v =
        .error ⟨.rb_eTypeError, "wrong type.  Expected (FFI::Type)"⟩ := by
      simp [rbffi_Type_GetIntValue, hf, rb_raise]
    have hi : isTypeHandle heap v = false := by simp [isTypeHandle, hf]
    refine ⟨?_, ?_, fun _ => hg, ?_⟩
    · rw [hg, hi]; simp
    · rw [hg, hi]; simp
    · intro t1 h1; rw [hf] at h1; cases h1

/-- Witness of C16: the builtin INT32 handle reports its tag, a string is
rejected. -/
theorem GetIntValue_iff_witness :
    rbffi_Type_GetIntValue (initRuntime countedTags).heap (.obj .classBuiltinType 5) = .ok 5 ∧
    rbffi_Type_GetIntValue (initRuntime countedTags).heap (.string "int") =
      .error ⟨.rb_eTypeError, "wrong type.  Expected (FFI::Type)"⟩ :=
  ⟨((GetIntValue_iff (initRuntime countedTags).heap (.obj .classBuiltinType 5)).2.2.2
      { nativeType := 5, ffiType := .ffi_type_sint32 } rfl (by decide)).2,
    (GetIntValue_iff (initRuntime countedTags).heap (.string "int")).2.2.1 rfl⟩

/-! ## Construction: which values are rejected -/

/-- Construction from a fixnum outside the range of `int` raises `RangeError`. -/
theorem type_new_fixnum_range (heap : Heap) (klass : RClass) (n : Int)
    (h : ¬ (INT_MIN ≤ n ∧ n ≤ INT_MAX)) :
    type_new heap klass (.fixnum n) =
      .error ⟨.rb_eRangeError, "integer out of range of int"⟩ := by
  simp [type_new, type_allocate, type_initialize, Data_Get_Struct, FIXNUM_P, FIX2INT,
    check_int, h, rb_raise, bind, Except.bind]

/-- Construction from a value that is neither a fixnum nor in the kind of
`FFI::Type` raises `ArgError`. -/
theorem type_new_wrong_type (heap : Heap) (klass : RClass) (v : VALUE)
    (hf : FIXNUM_P v = false) (hk : rb_obj_is_kind_of_Type v = false) :
    type_new heap klass v = .error ⟨.rb_eArgError, "wrong type"⟩ := by
  simp [type_new, type_allocate, type_initialize, Data_Get_Struct, hf, hk, rb_raise, bind,
    Except.bind]

/-- Whenever `Data_Get_Struct` raises, it raises `TypeError`. -/
theorem Data_Get_Struct_error_class (heap : Heap) (v : VALUE) (e : RbError)
    (h : Data_Get_Struct heap v = .error e) : e.klass = .rb_eTypeError := by
  cases v with
  | obj k addr =>
    simp only [Data_Get_Struct] at h
    split at h
    · cases h
    · simp only [rb_raise, Except.error.injEq] at h
      subst h
      rfl
  | _ =>
    simp only [Data_Get_Struct, rb_raise, Except.error.injEq] at h
    subst h
    rfl

/-- Construction from an object in the kind of `FFI::Type` does not raise
`ArgError`. -/
theorem type_new_kind_not_arg (heap : Heap) (klass : RClass) (v : VALUE) (msg : String)
    (hk : rb_obj_is_kind_of_Type v = true) :
    type_new heap klass v ≠ .error ⟨.rb_eArgError, msg⟩ := by
  have hf : FIXNUM_P v = false := by
    cases v <;> simp_all [FIXNUM_P, rb_obj_is_kind_of_Type]
  cases hs : Data_Get_Struct heap v with
  | ok t =>
    rw [type_new_copy_ok heap klass v t hk hs]
    intro e; cases e
  | error e0 =>
    cases v with
    | obj k addr =>
      simp only [type_new, type_allocate, type_initialize, Data_Get_Struct_fresh, hf, hk,
        bind, Except.bind, Bool.false_eq_true, if_false, if_true]
      split
      · rename_i err hg
        intro e
        cases e
        have := Data_Get_Struct_error_class _ _ _ hg
        cases this
      · intro e; cases e
    | _ => simp [rb_obj_is_kind_of_Type] at hk

/-- C17, as stated, fails: on the 64-bit host the integer `2^31` is a small
integer (fixnum), yet construction from it yields no handle with tag `2^31`;
the conversion to `int` raises `RangeError`. -/
theorem type_new_fixnum_range_counterexample :
    FIXNUM_P (.fixnum 2147483648) = true ∧
    type_new (initRuntime countedTags).heap .rbffi_TypeClass (.fixnum 2147483648) =
      .error ⟨.rb_eRangeError, "integer out of range of int"⟩ :=
  ⟨rfl, type_new_fixnum_range _ _ _ (by decide)⟩

/-- C17, amended. For every value `v`, construction of a generic handle from
`v` raises an argument error if and only if `v` is neither a small integer
(fixnum) nor in the kind of `FFI::Type`; when `v` is a small integer `n`
within the range of a C `int`, the resulting handle has tag `n` and keeps the
void descriptor set by `type_allocate`; a small integer outside that range
raises a range error. -/
theorem type_new_cases (heap : Heap) (klass : RClass) (v : VALUE) :
    ((∃ msg, type_new heap klass v = .error ⟨.rb_eArgError, msg⟩) ↔
      (FIXNUM_P v = false ∧ rb_obj_is_kind_of_Type v = false)) ∧
    (∀ n : Int, v = .fixnum n → INT_MIN ≤ n ∧ n ≤ INT_MAX →
      type_new heap klass v =
          .ok (heap ++ [Cell.generic { nativeType := n, ffiType := .ffi_type_void }],
            .obj klass heap.length) ∧
        Data_Get_Struct
            (heap ++ [Cell.generic { nativeType := n, ffiType := .ffi_type_void }])
            (.obj klass heap.length) =
          .ok { nativeType := n, ffiType := .ffi_type_void }) ∧
    (∀ n : Int, v = .fixnum n → ¬ (INT_MIN ≤ n ∧ n ≤ INT_MAX) →
      type_new heap klass v = .error ⟨.rb_eRangeError, "integer out of range of int"⟩) := by
  refine ⟨⟨?_, ?_⟩, ?_, ?_⟩
  · rintro ⟨msg, hm⟩
    by_cases hf : FIXNUM_P v = true
    · cases v with
      | fixnum n =>
        by_cases hr : INT_MIN ≤ n ∧ n ≤ INT_MAX
        · rw [type_new_fixnum_ok heap klass n hr] at hm; cases hm
        · rw [type_new_fixnum_range heap klass n hr] at hm; cases hm
      | _ => simp [FIXNUM_P] at hf
    · by_cases hk : rb_obj_is_kind_of_Type v = true
      · exact absurd hm (type_new_kind_not_arg heap klass v msg hk)
      · exact ⟨by simpa using hf, by simpa using hk⟩
  · rintro ⟨hf, hk⟩
    exact ⟨_, type_new_wrong_type heap klass v hf hk⟩
  · rintro n rfl hr
    exact ⟨type_new_fixnum_ok heap klass n hr, by simp [Data_Get_Struct_fresh, Cell.asType]⟩
  · rintro n rfl hr
    exact type_new_fixnum_range heap klass n hr

/-- Witness of the amended C17: the fixnum 3 becomes a tag, `nil` is
rejected with an argument error. -/
theorem type_new_cases_witness :
    type_new (initRuntime countedTags).heap .rbffi_TypeClass (.fixnum 3) =
      .ok ((initRuntime countedTags).heap ++
          [Cell.generic { nativeType := 3, ffiType := .ffi_type_void }],
        .obj .rbffi_TypeClass (initRuntime countedTags).heap.length) ∧
    ∃ msg, type_new (initRuntime countedTags).heap .rbffi_TypeClass .Qnil =
      .error ⟨.rb_eArgError, msg⟩ :=
  ⟨((type_new_cases (initRuntime countedTags).heap .rbffi_TypeClass (.fixnum 3)).2.1 3 rfl
      (by decide)).1,
    (type_new_cases (initRuntime countedTags).heap .rbffi_TypeClass .Qnil).1.2 ⟨rfl, rfl⟩⟩

/-! ## Lookup results are handles -/

/-- C18. For every registry content: a result of lookup other than `nil` is
in the kind of `FFI::Type`; a symbol or string registered to a value outside
that kind is reported as not found, and find fails on it; and whenever lookup
returns a handle, lookup and find on that handle return it again. -/
theorem lookup_result_handle (host : Host) (rt : Runtime) (x : VALUE) :
    (rbffi_Type_Lookup rt x ≠ .Qnil → rb_obj_is_kind_of_Type (rbffi_Type_Lookup rt x) = true) ∧
    ((TYPE x = .T_SYMBOL ∨ TYPE x = .T_STRING) →
      rb_obj_is_kind_of_Type (rb_hash_aref rt.typeMap x) = false →
      rbffi_Type_Lookup rt x = .Qnil ∧
        rbffi_Type_Find host rt x =
          .error ⟨.rb_eTypeError, "invalid type, " ++ host.rb_inspect x⟩) ∧
    (rbffi_Type_Lookup rt x ≠ .Qnil →
      rbffi_Type_Lookup rt (rbffi_Type_Lookup rt x) = rbffi_Type_Lookup rt x ∧
        rbffi_Type_Find host rt (rbffi_Type_Lookup rt x) = .ok (rbffi_Type_Lookup rt x)) := by
  have hkind : rbffi_Type_Lookup rt x ≠ .Qnil →
      rb_obj_is_kind_of_Type (rbffi_Type_Lookup rt x) = true := by
    intro hne
    rcases lookup_nil_or_kind rt x with h | h
    · exact absurd h hne
    · exact h
  refine ⟨hkind, ?_, ?_⟩
  · intro hx hv
    have hl : rbffi_Type_Lookup rt x = .Qnil := by
      rw [lookup_of_name rt x hx]
      simp [hv]
    exact ⟨hl, find_of_lookup_nil host rt x hl⟩
  · intro hne
    have hk := hkind hne
    have hl := lookup_of_kind rt (rbffi_Type_Lookup rt x) hk
    refine ⟨hl, ?_⟩
    have hf := find_of_lookup_kind host rt (rbffi_Type_Lookup rt x) (by rw [hl]; exact hk)
    rw [hl] at hf
    exact hf

/-- Witness of C18: the symbol `:junk` registered to the integer 3 is not
found, and find fails on it. -/
theorem lookup_result_handle_witness :
    rbffi_Type_Lookup (registerType (initRuntime countedTags) (.symbol "junk") (.fixnum 3))
      (.symbol "junk") = .Qnil ∧
    rbffi_Type_Find plainHost
      (registerType (initRuntime countedTags) (.symbol "junk") (.fixnum 3)) (.symbol "junk") =
      .error ⟨.rb_eTypeError, "invalid type, " ++ plainHost.rb_inspect (.symbol "junk")⟩ :=
  (lookup_result_handle plainHost
    (registerType (initRuntime countedTags) (.symbol "junk") (.fixnum 3))
    (.symbol "junk")).2.1 (Or.inl rfl) (by decide)

/-! ## Byte sizes: delegation for a registered symbol -/

/-- C19. For every symbol `k` registered in `typeMap` (to a handle or any
value other than `nil`) for which `sizeMap` holds no fixnum entry,
`rbffi_type_size(k)` calls the host's `FFI.type_size` exactly once with `k`
and returns its result (an integer within the range of `int` unchanged, a
failure passed on). The handle's own struct and descriptor are not read: the
result is the same whatever the heap holds. -/
theorem type_size_symbol_delegates (host : Host) (rt : Runtime) (name : String)
    (hn : rb_hash_aref rt.typeMap (.symbol name) ≠ .Qnil)
    (hs : TYPE (rb_hash_aref rt.sizeMap (rb_hash_aref rt.typeMap (.symbol name))) ≠
      .T_FIXNUM) :
    rbffi_type_size host rt (.symbol name) =
        (host.rb_funcall2 ⟨rbffi_FFIModule, .id_type_size, [.symbol name]⟩ >>= NUM2INT host,
          [⟨rbffi_FFIModule, .id_type_size, [.symbol name]⟩]) ∧
    (∀ heap : Heap, rbffi_type_size host { rt with heap := heap } (.symbol name) =
        rbffi_type_size host rt (.symbol name)) ∧
    (∀ n, host.rb_funcall2 ⟨rbffi_FFIModule, .id_type_size, [.symbol name]⟩ =
        .ok (.fixnum n) → INT_MIN ≤ n ∧ n ≤ INT_MAX →
      rbffi_type_size host rt (.symbol name) =
        (.ok n, [⟨rbffi_FFIModule, .id_type_size, [.symbol name]⟩])) ∧
    (∀ e, host.rb_funcall2 ⟨rbffi_FFIModule, .id_type_size, [.symbol name]⟩ = .error e →
      rbffi_type_size host rt (.symbol name) =
        (.error e, [⟨rbffi_FFIModule, .id_type_size, [.symbol name]⟩])) := by
  have heq : rbffi_type_size host rt (.symbol name) =
      (host.rb_funcall2 ⟨rbffi_FFIModule, .id_type_size, [.symbol name]⟩ >>= NUM2INT host,
        [⟨rbffi_FFIModule, .id_type_size, [.symbol name]⟩]) := by
    have ht : TYPE (VALUE.symbol name) = .T_SYMBOL := rfl
    simp [rbffi_type_size, ht, hn, hs]
  refine ⟨heq, ?_, ?_, ?_⟩
  · intro heap
    simp [rbffi_type_size]
  · intro n hh hr
    rw [heq, hh]
    simp [bind, Except.bind, NUM2INT, check_int, hr]
  · intro e he
    rw [heq, he]
    rfl

/-- Witness of C19: `:int` is registered to the builtin INT32 handle, whose
descriptor has size 4, and `sizeMap` is empty; the host is asked once and its
answer, 16, is returned. -/
theorem type_size_symbol_delegates_witness :
    type_size lp64 (initRuntime countedTags).heap (.obj .classBuiltinType 5) =
      .ok (.fixnum 4) ∧
    rbffi_type_size rubyHost
      (registerType (initRuntime countedTags) (.symbol "int") (.obj .classBuiltinType 5))
      (.symbol "int") =
      (.ok 16, [⟨rbffi_FFIModule, .id_type_size, [.symbol "int"]⟩]) :=
  ⟨by decide,
    (type_size_symbol_delegates rubyHost
      (registerType (initRuntime countedTags) (.symbol "int") (.obj .classBuiltinType 5))
      "int" (by decide) (by decide)).2.2.1 16 (by decide) (by decide)⟩

/-! ## The builtin table is well-formed -/

/-- A line that passes `Stmt.definesCanonical` is the `T` line of that name. -/
theorem Stmt.definesCanonical_eq (name : String) (s : Stmt)
    (h : s.definesCanonical name = true) :
    ∃ x ffiType, s = .T x ffiType ∧ x.name = name := by
  cases s with
  | T x ffiType =>
    simp only [Stmt.definesCanonical, decide_eq_true_eq] at h
    exact ⟨x, ffiType, rfl, h⟩
  | A old_type new_type => simp [Stmt.definesCanonical] at h

/-- What the walk `aliasTargetsDefined` establishes: every `A` line of the
run comes after a `T` line of its target, among the earlier lines or in the
run itself. -/
theorem aliasTargetsDefined_spec (l : List Stmt) :
    ∀ earlier : List Stmt, aliasTargetsDefined earlier l = true →
      ∀ pre post old_type new_type, l = pre ++ Stmt.A old_type new_type :: post →
        ∃ x ffiType, Stmt.T x ffiType ∈ earlier ++ pre ∧ x.name = old_type := by
  induction l with
  | nil =>
    intro earlier _ pre post old_type new_type he
    cases pre <;> cases he
  | cons s rest ih =>
    intro earlier hw pre post old_type new_type he
    cases pre with
    | nil =>
      simp only [List.nil_append, List.cons.injEq] at he
      obtain ⟨rfl, _⟩ := he
      simp only [aliasTargetsDefined, Bool.and_eq_true, List.any_eq_true] at hw
      obtain ⟨⟨s1, hmem, hdef⟩, _⟩ := hw
      obtain ⟨x, ffiType, rfl, hx⟩ := Stmt.definesCanonical_eq old_type s1 hdef
      exact ⟨x, ffiType, by simpa using hmem, hx⟩
    | cons p pre1 =>
      simp only [List.cons_append, List.cons.injEq] at he
      obtain ⟨rfl, hrest⟩ := he
      have hw1 : aliasTargetsDefined (earlier ++ [s]) rest = true := by
        cases s with
        | T x ffiType => simpa [aliasTargetsDefined] using hw
        | A o n =>
          simp only [aliasTargetsDefined, Bool.and_eq_true] at hw
          exact hw.2
      obtain ⟨x, ffiType, hmem, hx⟩ := ih (earlier ++ [s]) hw1 pre1 post old_type new_type hrest
      refine ⟨x, ffiType, ?_, hx⟩
      simpa [List.append_assoc] using hmem

/-- C20. The builtin table is well-formed: the constant names its `T` and `A`
lines introduce in class `FFI::Type` are pairwise distinct, and so are all
the constants initialization defines in its three namespaces, so that no
definition overwrites another; every line `A(old_type, new_type)` comes after
a line `T(old_type, ...)`; and initialization runs through, every alias
finding its target. -/
theorem builtinTable_wellFormed (NATIVE : TagValues) :
    (builtinTable.map Stmt.introduced).Nodup ∧
    (initConsts.map Prod.fst).Nodup ∧
    (∀ pre post old_type new_type, builtinTable = pre ++ Stmt.A old_type new_type :: post →
      ∃ x ffiType, Stmt.T x ffiType ∈ pre ∧ x.name = old_type) ∧
    (∃ rt, rbffi_Type_Init NATIVE = .ok rt ∧ rt.consts = initConsts) := by
  refine ⟨by decide, by decide, ?_, ⟨_, rbffi_Type_Init_eq NATIVE, rfl⟩⟩
  intro pre post old_type new_type he
  have hw : aliasTargetsDefined [] builtinTable = true := by decide
  simpa using aliasTargetsDefined_spec builtinTable [] hw pre post old_type new_type he

end FFI
